import Mathlib

/-!
Gravr: the drop simulation's physical core.

A shallow embedding of `src/Particle.cpp`, of the stepping logic of
`src/Simulation.cpp`, of the two prompts of `src/InputHandler.cpp` and of the height
readout of `src/UIManager.cpp`.

Modelling conventions.

* A C++ `float` is a rational number and `+ - * /` are exact: rounding, infinities
  and NaN are outside the model.  Every float is a rational, so the model's inputs
  cover every finite input of the program.
* On finite inputs the exact model departs from the code in one place: the division
  by a zero `mass` in `applyForce` (`x / 0 = 0` on the rationals, NaN or an infinity in
  the code).  The floor bound of the tick is therefore stated for a non-zero mass
  (`Simulation.activeTick_floor`), and `XFloat` with `tickPositionY754` evaluates the
  tick at mass 0.
* `std::sqrt`, `std::pow` and the `std::fixed << std::setprecision(2)` stream
  formatting are C++ library code, not code of the repository.  They are taken as the
  fields of a `StdLib` value, over which every definition that calls them is
  parametric.
* `sf::Clock` readings and `sf::Keyboard::isKeyPressed` answers come from the
  environment; one loop iteration receives them in a `FrameInput`.
* `std::stof` is a parameter of the prompts (`none` for a thrown exception); a prompt
  receives the event queue of each frame as a list.
-/

namespace Gravr

/-! ## `sf::Vector2f` -/

/-- The two float components of an `sf::Vector2f`. -/
structure Vector2f where
  x : ℚ
  y : ℚ
  deriving DecidableEq

namespace Vector2f

/-- Componentwise sum, `operator+` (and `operator+=`). -/
def add (a b : Vector2f) : Vector2f := ⟨a.x + b.x, a.y + b.y⟩

/-- Vector times scalar, `operator*(Vector2f, float)`. -/
def mulScalar (a : Vector2f) (s : ℚ) : Vector2f := ⟨a.x * s, a.y * s⟩

/-- Scalar times vector, `operator*(float, Vector2f)`. -/
def scalarMul (s : ℚ) (a : Vector2f) : Vector2f := ⟨a.x * s, a.y * s⟩

/-- Vector divided by scalar, `operator/(Vector2f, float)`. -/
def divScalar (a : Vector2f) (s : ℚ) : Vector2f := ⟨a.x / s, a.y / s⟩

instance : Add Vector2f := ⟨add⟩
instance : HMul Vector2f ℚ Vector2f := ⟨mulScalar⟩
instance : HMul ℚ Vector2f Vector2f := ⟨scalarMul⟩
instance : HDiv Vector2f ℚ Vector2f := ⟨divScalar⟩

end Vector2f

/-! ## C++ library functions used by the program -/

/-- The C++ library functions the program calls: `std::sqrt`, `std::pow`, and the
two-decimals fixed formatting of a float written to a `std::ostringstream`. -/
structure StdLib where
  sqrt : ℚ → ℚ
  pow : ℚ → ℚ → ℚ
  fixed2 : ℚ → String

/-! ## `Particle.cpp` -/

def PIXELS_PER_M : ℚ := 57.78
def AIR_DENSITY : ℚ := 1.225
def AIR_VISCOSITY : ℚ := 1.81e-5
def PI : ℚ := 3.14159265359
def BALL_RADIUS : ℚ := 0.04
def DRAG_MULTIPLIER : ℚ := 8.0

/-- The data members of `class Particle` (`Particle.h`). -/
structure Particle where
  position : Vector2f
  velocity : Vector2f
  acceleration : Vector2f
  mass : ℚ
  deriving DecidableEq

namespace Particle

/-- The constructor `Particle::Particle(x, y, mass)`. -/
def create (x y mass : ℚ) : Particle :=
  { position := ⟨x, y⟩, velocity := ⟨0, 0⟩, acceleration := ⟨0, 0⟩, mass := mass }

/-- Method `Particle::applyForce`: `acceleration += force / mass`. -/
def applyForce (p : Particle) (force : Vector2f) : Particle :=
  { p with acceleration := p.acceleration + force / p.mass }

/-- Method `Particle::update`: velocity first, then position from the new velocity, then the
acceleration is cleared. -/
def update (p : Particle) (dt : ℚ) : Particle :=
  let velocity := p.velocity + p.acceleration * dt
  let position := p.position + velocity * dt
  { p with velocity := velocity, position := position, acceleration := ⟨0, 0⟩ }

/-- Method `Particle::calculateCrossSection`. -/
def calculateCrossSection (_p : Particle) : ℚ :=
  PI * BALL_RADIUS * BALL_RADIUS

/-- Method `Particle::calculateReynoldsNumber`. -/
def calculateReynoldsNumber (_p : Particle) (speed : ℚ) : ℚ :=
  let diameter := 2.0 * BALL_RADIUS
  (AIR_DENSITY * speed * diameter) / AIR_VISCOSITY

/-- The local `speedPixels` of `calculateDragCoefficient` and of `applyDrag`:
`std::sqrt(velocity.x * velocity.x + velocity.y * velocity.y)`. -/
def speedPixels (L : StdLib) (p : Particle) : ℚ :=
  L.sqrt (p.velocity.x * p.velocity.x + p.velocity.y * p.velocity.y)

/-- Method `Particle::calculateDragCoefficient`. -/
def calculateDragCoefficient (L : StdLib) (p : Particle) : ℚ :=
  let speedPixels := L.sqrt (p.velocity.x * p.velocity.x + p.velocity.y * p.velocity.y)
  if speedPixels < 0.01 then 0.47
  else
    let speedMeters := speedPixels / PIXELS_PER_M
    let reynolds := p.calculateReynoldsNumber speedMeters
    if reynolds < 0.1 then
      24.0 / max reynolds 0.001
    else if reynolds < 1000.0 then
      24.0 / reynolds * (1.0 + 0.15 * L.pow reynolds 0.687)
    else if reynolds < 300000.0 then
      0.44
    else
      0.1

/-- The local `dragForce` of `Particle::applyDrag`, computed on the path that does not
return early: `-drag * (velocity / speedPixels) * PIXELS_PER_M`. -/
def dragForce (L : StdLib) (p : Particle) : Vector2f :=
  let speedPixels := L.sqrt (p.velocity.x * p.velocity.x + p.velocity.y * p.velocity.y)
  let speedMeters := speedPixels / PIXELS_PER_M
  let Cd := p.calculateDragCoefficient L
  let A := p.calculateCrossSection
  let drag := 0.5 * AIR_DENSITY * speedMeters * speedMeters * Cd * A * DRAG_MULTIPLIER
  ((-drag) * (p.velocity / speedPixels)) * PIXELS_PER_M

/-- Method `Particle::applyDrag`.  The parameter `deltaTime` is not read by the body. -/
def applyDrag (L : StdLib) (p : Particle) (_deltaTime : ℚ) : Particle :=
  let speedPixels := L.sqrt (p.velocity.x * p.velocity.x + p.velocity.y * p.velocity.y)
  if speedPixels < 0.01 then p
  else p.applyForce (p.dragForce L)

end Particle

/-! ## `Simulation.cpp` -/

def WINDOW_WIDTH : Int := 1280
def WINDOW_HEIGHT : Int := 720
def GRAVITY : ℚ := 9.81 * PIXELS_PER_M
def PARTICLE_SIZE : Int := 12

/-- Constant `const float BASE_Y = WINDOW_HEIGHT - PARTICLE_SIZE`: an `int` difference converted
to `float`. -/
def BASE_Y : ℚ := ((WINDOW_HEIGHT - PARTICLE_SIZE : Int) : ℚ)

/-- The conversion of a `float` to an `int`, which discards the fractional part
(rounds toward zero). -/
def floatToInt (q : ℚ) : Int := if 0 ≤ q then ⌊q⌋ else ⌈q⌉

/-- What the environment supplies during one iteration of the loop of
`Simulation::run`, in program order. -/
structure FrameInput where
  /-- some polled event is `Closed`, or Escape is held while an event is polled -/
  closeRequested : Bool
  /-- answer of `isKeyPressed(Enter)` in the start test -/
  enterStart : Bool
  /-- answer of `isKeyPressed(Num0)`, the reset key -/
  num0 : Bool
  /-- answer of `isKeyPressed(Backspace)`, the pause key -/
  backspace : Bool
  /-- answer of `isKeyPressed(Enter)` in the paused branch -/
  enterResume : Bool
  /-- value of `frameClock.restart().asSeconds()` -/
  deltaTime : ℚ
  /-- value of `totalClock.getElapsedTime().asSeconds()` read for `timeString` -/
  time : ℚ
  /-- value of `totalClock.getElapsedTime().asSeconds()` read at the first contact -/
  contactTime : ℚ
  /-- value of `totalClock.getElapsedTime().asSeconds()` read when the run finishes -/
  totalTime : ℚ

/-- The state of `class Simulation` that the stepping logic reads or writes, together
with the mutable global `PARTICLE_PIXELS_HEIGHT` and whether the window is open.
`particleShape` is the position given to the drawn circle. -/
structure Simulation where
  windowOpen : Bool
  simulationFinished : Bool
  gameStarted : Bool
  isPaused : Bool
  timeString : String
  finishedTimeString : String
  particle : Particle
  particleShape : Vector2f
  hasTouchedGround : Bool
  timeToFirstContact : ℚ
  PARTICLE_PIXELS_HEIGHT : Int

namespace Simulation

/-- The constructor `Simulation::Simulation`, given whether the window is still open
and the two values returned by `InputHandler::getMass` and `InputHandler::getHeight`.
The global `PARTICLE_PIXELS_HEIGHT` is an `int`: the assignment truncates. -/
def create (windowOpen : Bool) (mass height : ℚ) : Simulation :=
  let pixelsHeight : Int := floatToInt (BASE_Y - (height * PIXELS_PER_M))
  { windowOpen := windowOpen
    simulationFinished := false
    gameStarted := false
    isPaused := false
    timeString := ""
    finishedTimeString := ""
    particle := Particle.create ((WINDOW_WIDTH / 2 : Int) : ℚ) (pixelsHeight : ℚ) mass
    particleShape := ⟨((WINDOW_WIDTH / 2 : Int) : ℚ), (pixelsHeight : ℚ)⟩
    hasTouchedGround := false
    timeToFirstContact := 0.0
    PARTICLE_PIXELS_HEIGHT := pixelsHeight }

/-- Method `Simulation::resetSimulation` (the two clock restarts act on the environment). -/
def resetSimulation (s : Simulation) : Simulation :=
  { s with
    particle :=
      { s.particle with
        position := ⟨((WINDOW_WIDTH / 2 : Int) : ℚ), (s.PARTICLE_PIXELS_HEIGHT : ℚ)⟩
        velocity := ⟨0, 0⟩ }
    hasTouchedGround := false
    timeToFirstContact := 0.0 }

/-- The forces and the integration of an active tick:
`applyForce(gravityForce); applyDrag(deltaTime); update(deltaTime)`. -/
def integrate (L : StdLib) (p : Particle) (deltaTime : ℚ) : Particle :=
  let gravityForce : Vector2f := ⟨0, GRAVITY * p.mass⟩
  ((p.applyForce gravityForce).applyDrag L deltaTime).update deltaTime

/-- The body of `if (particle.position.y > BASE_Y)`: clamp, first-contact latch,
bounce or settle. -/
def floorContact (L : StdLib) (s : Simulation) (inp : FrameInput) : Simulation :=
  let s1 := { s with particle := { s.particle with position := ⟨s.particle.position.x, BASE_Y⟩ } }
  let impactSpeed := |s1.particle.velocity.y|
  let s2 :=
    if !s1.hasTouchedGround then
      { s1 with hasTouchedGround := true, timeToFirstContact := inp.contactTime }
    else s1
  if impactSpeed > 2.0 then
    let COR : ℚ := 0.7
    { s2 with particle :=
        { s2.particle with velocity := ⟨s2.particle.velocity.x, -s2.particle.velocity.y * COR⟩ } }
  else
    { s2 with
      particle := { s2.particle with velocity := ⟨s2.particle.velocity.x, 0⟩ }
      simulationFinished := true
      finishedTimeString :=
        "First contact: " ++ L.fixed2 s2.timeToFirstContact ++ " s | " ++
        "Total time: " ++ L.fixed2 inp.totalTime ++ " s" }

/-- The body of `if (!isPaused && !simulationFinished)`: one active tick. -/
def activeTick (L : StdLib) (s : Simulation) (inp : FrameInput) : Simulation :=
  let deltaTime := inp.deltaTime
  let s1 := { s with
    particle := integrate L s.particle deltaTime
    timeString := L.fixed2 inp.time ++ " s" }
  let s2 := if s1.particle.position.y > BASE_Y then floorContact L s1 inp else s1
  { s2 with particleShape := s2.particle.position }

/-- One iteration of the `while (window.isOpen())` loop of `Simulation::run`. -/
def runIteration (L : StdLib) (s : Simulation) (inp : FrameInput) : Simulation :=
  let s := if inp.closeRequested then { s with windowOpen := false } else s
  let s :=
    if inp.enterStart && !s.gameStarted then resetSimulation { s with gameStarted := true }
    else s
  if s.gameStarted then
    let s :=
      if inp.num0 then
        { resetSimulation s with isPaused := false, simulationFinished := false }
      else s
    let s :=
      if inp.backspace && !s.simulationFinished then { s with isPaused := true } else s
    let s :=
      if s.isPaused then
        if inp.enterResume then { s with isPaused := false } else s
      else s
    if !s.isPaused && !s.simulationFinished then activeTick L s inp
    else s
  else s

/-- Method `Simulation::run` on the frames of a finite prefix of the session: the loop body
runs for a frame only while the window is open. -/
def run (L : StdLib) : Simulation → List FrameInput → Simulation
  | s, [] => s
  | s, inp :: rest => if s.windowOpen then run L (runIteration L s inp) rest else s

/-- The states the program can be in at the top of the loop of `run`: the constructed
state (whose window the input prompts may already have closed), and the state after an iteration started with the window open. -/
inductive Reachable (L : StdLib) : Simulation → Prop
  | start (windowOpen : Bool) (mass height : ℚ) : Reachable L (create windowOpen mass height)
  | step {s : Simulation} (inp : FrameInput) :
      Reachable L s → s.windowOpen = true → Reachable L (runIteration L s inp)

end Simulation

/-! ## `InputHandler.cpp` -/

/-- The kinds of `sf::Event` the prompts distinguish; `unicode` is the `char32_t` of a
`TextEntered` event. -/
inductive Event where
  | closed
  | textEntered (unicode : Nat)
  | other
  deriving DecidableEq

/-- An event returned by `window.pollEvent()`, with the answer of
`isKeyPressed(Escape)` at the moment the event is handled. -/
structure PolledEvent where
  event : Event
  escapeHeld : Bool

/-- The locals of a prompt: the typed text (a string of `char32_t`), the `float` result
variable (`mass` or `height`) and `inputDone`. -/
structure PromptState where
  userInputString : List Nat
  value : ℚ
  inputDone : Bool

/-- What a prompt has done once the given frames are consumed: it has returned a value
(and left the window open or closed), or it is still in its loop waiting for events. -/
inductive PromptResult where
  | returned (value : ℚ) (windowOpen : Bool)
  | waiting
  deriving DecidableEq

namespace InputHandler

/-- The body of the `while (pollEvent())` loop of `getMass` and `getHeight`, for the
range `[lo, hi]`; `stof` is `std::stof`, with `none` for a thrown exception.  The result
`none` stands for `window.close(); return <default>;`. -/
def handleEvent (stof : List Nat → Option ℚ) (lo hi : ℚ) (st : PromptState)
    (e : PolledEvent) : Option PromptState :=
  if e.event = Event.closed ∨ e.escapeHeld = true then none
  else
    match e.event with
    | Event.textEntered unicode =>
      if unicode = 8 ∧ st.userInputString ≠ [] then
        some { st with userInputString := st.userInputString.dropLast }
      else if unicode = 13 ∨ unicode = 10 then
        if st.userInputString ≠ [] then
          match stof st.userInputString with
          | some v =>
            some { st with value := v
                           inputDone := if lo ≤ v ∧ v ≤ hi then true else st.inputDone }
          | none => some st
        else some st
      else if (48 ≤ unicode ∧ unicode ≤ 57) ∨ unicode = 46 then
        some { st with userInputString := st.userInputString ++ [unicode] }
      else some st
    | _ => some st

/-- The loop `while (const std::optional event = window.pollEvent())` over the events
queued in one frame: every queued event is handled, also after `inputDone` is set. -/
def pollEvents (stof : List Nat → Option ℚ) (lo hi : ℚ) :
    PromptState → List PolledEvent → Option PromptState
  | st, [] => some st
  | st, e :: es =>
    match handleEvent stof lo hi st e with
    | none => none
    | some st2 => pollEvents stof lo hi st2 es

/-- The loop `while (!inputDone && window.isOpen())` and the return that follows it,
over the event queues of successive frames. -/
def promptLoop (stof : List Nat → Option ℚ) (lo hi dflt : ℚ) :
    PromptState → List (List PolledEvent) → PromptResult
  | st, [] => if st.inputDone then PromptResult.returned st.value true else PromptResult.waiting
  | st, batch :: rest =>
    if st.inputDone then PromptResult.returned st.value true
    else
      match pollEvents stof lo hi st batch with
      | none => PromptResult.returned dflt false
      | some st2 => promptLoop stof lo hi dflt st2 rest

/-- The common shape of `getMass` and `getHeight`: `uninit` is the indeterminate initial
value of the result variable; with the window already closed the loop is skipped and
the default is returned. -/
def prompt (stof : List Nat → Option ℚ) (lo hi dflt uninit : ℚ) (windowOpen : Bool)
    (frames : List (List PolledEvent)) : PromptResult :=
  if windowOpen then
    promptLoop stof lo hi dflt { userInputString := [], value := uninit, inputDone := false }
      frames
  else PromptResult.returned dflt false

/-- Function `InputHandler::getMass`. -/
def getMass (stof : List Nat → Option ℚ) (uninit : ℚ) (windowOpen : Bool)
    (frames : List (List PolledEvent)) : PromptResult :=
  prompt stof 0.001 100.0 0.056 uninit windowOpen frames

/-- Function `InputHandler::getHeight`. -/
def getHeight (stof : List Nat → Option ℚ) (uninit : ℚ) (windowOpen : Bool)
    (frames : List (List PolledEvent)) : PromptResult :=
  prompt stof 1.0 10.0 2.0 uninit windowOpen frames

end InputHandler

/-- The number written by a list of decimal digit characters. -/
def digitsValue (ds : List Nat) : Nat := ds.foldl (fun acc d => 10 * acc + (d - 48)) 0

/-- The value `std::stof` gives a string of digits and dots whose value a `float` holds
exactly: the longest prefix of the form digits, or digits `.` digits, is converted, and
a string with no digit in that prefix throws. -/
def decimalStof (s : List Nat) : Option ℚ :=
  let isDigit : Nat → Bool := fun c => decide (48 ≤ c ∧ c ≤ 57)
  let ip := s.takeWhile isDigit
  let fp :=
    match s.dropWhile isDigit with
    | 46 :: r => r.takeWhile isDigit
    | _ => []
  if ip = [] ∧ fp = [] then none
  else some ((digitsValue ip : ℚ) + (digitsValue fp : ℚ) / 10 ^ fp.length)

/-- A `TextEntered` event handled while Escape is not held. -/
def typed (unicode : Nat) : PolledEvent := { event := Event.textEntered unicode, escapeHeld := false }

/-! ## `UIManager.cpp` -/

/-- The local `height` of `UIManager::drawSimulationUI`, the height shown next to the
body: `-((particle.position.y - BASE_Y) / PIXELS_PER_M)`. -/
def displayedHeight (p : Particle) : ℚ := -((p.position.y - BASE_Y) / PIXELS_PER_M)

/-! ## Division by the mass in IEEE 754 arithmetic -/

/-- A `float` value up to rounding: a finite number, an infinity with its sign, or
NaN. -/
inductive XFloat where
  | finite (q : ℚ)
  | infinite (negative : Bool)
  | nan
  deriving DecidableEq

namespace XFloat

/-- The quotient `a / b` of two finite floats, the zero divisor being `+0`: NaN for
`0 / 0`, the infinity with the sign of `a` for a non-zero `a` over zero. -/
def div (a b : ℚ) : XFloat :=
  if b = 0 then (if a = 0 then nan else infinite (decide (a < 0))) else finite (a / b)

/-- Sum: NaN absorbs, opposite infinities give NaN, an infinity absorbs a finite
number. -/
def add : XFloat → XFloat → XFloat
  | finite a, finite b => finite (a + b)
  | finite _, infinite t => infinite t
  | infinite s, finite _ => infinite s
  | infinite s, infinite t => if s = t then infinite s else nan
  | nan, _ => nan
  | _, nan => nan

/-- Product: NaN absorbs, an infinity times zero is NaN, otherwise the signs
multiply. -/
def mul : XFloat → XFloat → XFloat
  | finite a, finite b => finite (a * b)
  | finite a, infinite t => if a = 0 then nan else infinite (t != decide (a < 0))
  | infinite s, finite b => if b = 0 then nan else infinite (s != decide (b < 0))
  | infinite s, infinite t => infinite (s != t)
  | nan, _ => nan
  | _, nan => nan

/-- The comparison `a > b` with a finite `b`: false for NaN. -/
def gt : XFloat → ℚ → Bool
  | finite a, b => decide (a > b)
  | infinite negative, _ => !negative
  | nan, _ => false

/-- The comparison `a <= b` with a finite `b`: false for NaN. -/
def le : XFloat → ℚ → Bool
  | finite a, b => decide (a ≤ b)
  | infinite negative, _ => negative
  | nan, _ => false

end XFloat

/-- The `position.y` an active tick of `Simulation::run` leaves, from a body whose
fields are finite, with the two divisions by `mass` of `applyForce` taken in IEEE 754
arithmetic: `applyForce(gravityForce)`, `applyDrag` (early return below the rest
threshold), `update`, then the floor check `if (position.y > BASE_Y) position.y = BASE_Y`. -/
def tickPositionY754 (L : StdLib) (p : Particle) (deltaTime : ℚ) : XFloat :=
  let acc1 := XFloat.add (XFloat.finite p.acceleration.y) (XFloat.div (GRAVITY * p.mass) p.mass)
  let acc2 :=
    if p.speedPixels L < 0.01 then acc1
    else XFloat.add acc1 (XFloat.div (p.dragForce L).y p.mass)
  let velocity := XFloat.add (XFloat.finite p.velocity.y) (XFloat.mul acc2 (XFloat.finite deltaTime))
  let position := XFloat.add (XFloat.finite p.position.y) (XFloat.mul velocity (XFloat.finite deltaTime))
  if XFloat.gt position BASE_Y then XFloat.finite BASE_Y else position

/-! ## The regime table of the specification -/

/-- The five rows of the drag-coefficient table of the specification. -/
inductive Regime where
  | rest
  | stokes
  | transitional
  | newton
  | postCritical
  deriving DecidableEq

/-- Specification side: the condition under which a row of the drag-coefficient table
applies, for a speed `s` in pixels per second and a Reynolds number `re`. -/
def Regime.applies (s re : ℚ) : Regime → Prop
  | .rest => s < 0.01
  | .stokes => 0.01 ≤ s ∧ re < 0.1
  | .transitional => 0.01 ≤ s ∧ 0.1 ≤ re ∧ re < 1000
  | .newton => 0.01 ≤ s ∧ 1000 ≤ re ∧ re < 300000
  | .postCritical => 0.01 ≤ s ∧ 300000 ≤ re

/-- Specification side: the coefficient a row of the drag-coefficient table gives. -/
def Regime.coefficient (L : StdLib) (re : ℚ) : Regime → ℚ
  | .rest => 0.47
  | .stokes => 24 / max re 0.001
  | .transitional => (24 / re) * (1 + 0.15 * L.pow re 0.687)
  | .newton => 0.44
  | .postCritical => 0.1

/-- Specification side: the drag force `d(v)` of a tick, which is the `dragForce` of
`applyDrag` when the speed reaches the rest threshold and the zero vector below it. -/
def dragOf (L : StdLib) (p : Particle) : Vector2f :=
  if p.speedPixels L < 0.01 then ⟨0, 0⟩ else p.dragForce L

/-! ## A library instance for the examples -/

/-- A library instance on which the examples are evaluated: the square root is the
rational square root, exact on the squares of rationals; the power function and the
formatting are stand-ins, which the examples do not depend on. -/
def exampleLib : StdLib :=
  { sqrt := Rat.sqrt, pow := fun _ _ => 1, fixed2 := fun _ => "" }

/-- A started, running state with the body at rest 8 pixels above the floor. -/
def exampleNearFloor : Simulation :=
  { windowOpen := true
    simulationFinished := false
    gameStarted := true
    isPaused := false
    timeString := ""
    finishedTimeString := ""
    particle := { position := ⟨640, 700⟩, velocity := ⟨0, 0⟩, acceleration := ⟨0, 0⟩, mass := 1 }
    particleShape := ⟨640, 700⟩
    hasTouchedGround := false
    timeToFirstContact := 0
    PARTICLE_PIXELS_HEIGHT := 592 }

/-- A frame in which no key is held, of the given duration, with every clock reading
equal to `t`. -/
def exampleFrame (dt t : ℚ) : FrameInput :=
  { closeRequested := false, enterStart := false, num0 := false, backspace := false,
    enterResume := false, deltaTime := dt, time := t, contactTime := t, totalTime := t }

/-- The first frame of the example session: Enter is held, the frame lasts one second. -/
def exampleStartFrame : FrameInput := { exampleFrame 1 1 with enterStart := true }

/-- The example session after its first frame: mass 1 kg dropped from 2 m, started, and
after one tick of one second already bounced off the floor. -/
def exampleBounced : Simulation :=
  Simulation.runIteration exampleLib (Simulation.create true 1 2) exampleStartFrame

/-- The example session after its second frame, of 0.667 s, in which the body comes
back to the floor with a speed below the settle threshold. -/
def exampleSettled : Simulation :=
  Simulation.runIteration exampleLib exampleBounced (exampleFrame (667 / 1000) 2)

/-- A frame in which the pause key and both Enter queries are held. -/
def examplePauseFrame : FrameInput :=
  { exampleFrame 1 3 with backspace := true, enterStart := true, enterResume := true }

/-- The body of `if (sf::Keyboard::isKeyPressed(sf::Keyboard::Key::Num0))` in
`Simulation::run`: `resetSimulation(); isPaused = false; simulationFinished = false;`. -/
def Simulation.resetKeyPressed (s : Simulation) : Simulation :=
  { Simulation.resetSimulation s with isPaused := false, simulationFinished := false }

/-- The two frames of the example session. -/
def exampleFrames : List FrameInput := [exampleStartFrame, exampleFrame (667 / 1000) 2]

/-- A frame in which only the reset key is held. -/
def exampleResetFrame : FrameInput := { exampleFrame (1 / 100) 3 with num0 := true }

/-- One drag-free tick under gravity `G`: the tick of `Simulation::run` without the
`applyDrag` call, `applyForce((0, G * mass)); update(dt)`. -/
def freeFallTick (G : ℚ) (p : Particle) (dt : ℚ) : Particle :=
  (p.applyForce ⟨0, G * p.mass⟩).update dt

/-- The drag-free tick repeated `n` times with the same step `dt`. -/
def freeFall (G dt : ℚ) : ℕ → Particle → Particle
  | 0, p => p
  | n + 1, p => freeFall G dt n (freeFallTick G p dt)

/-- A library instance whose power function answers from a two-entry table, 0.2 for a
base below 1 and 115 otherwise: the values of `x^0.687` at `x = 0.1` and `x = 1000`
to within 0.1 and 2. -/
def exampleTableLib : StdLib :=
  { sqrt := Rat.sqrt, pow := fun x _ => if x < 1 then 1 / 5 else 115, fixed2 := fun _ => "" }

/-! ## Basic facts about vectors -/

@[simp] theorem Vector2f.add_x (a b : Vector2f) : (a + b).x = a.x + b.x := rfl
@[simp] theorem Vector2f.add_y (a b : Vector2f) : (a + b).y = a.y + b.y := rfl
@[simp] theorem Vector2f.mulScalar_x (a : Vector2f) (s : ℚ) : (a * s).x = a.x * s := rfl
@[simp] theorem Vector2f.mulScalar_y (a : Vector2f) (s : ℚ) : (a * s).y = a.y * s := rfl
@[simp] theorem Vector2f.scalarMul_x (s : ℚ) (a : Vector2f) : (s * a).x = a.x * s := rfl
@[simp] theorem Vector2f.scalarMul_y (s : ℚ) (a : Vector2f) : (s * a).y = a.y * s := rfl
@[simp] theorem Vector2f.divScalar_x (a : Vector2f) (s : ℚ) : (a / s).x = a.x / s := rfl
@[simp] theorem Vector2f.divScalar_y (a : Vector2f) (s : ℚ) : (a / s).y = a.y / s := rfl

theorem Vector2f.ext_iff_xy (a b : Vector2f) : a = b ↔ a.x = b.x ∧ a.y = b.y := by
  cases a; cases b; simp

/-! ## C1: integration -/

/-- C1. `Particle::update` is semi-implicit Euler: the new velocity is `v + a*dt`, the
new position is `p + v'*dt` with the NEW velocity `v'`, the acceleration is cleared and
the mass is kept; `update(0)` keeps position and velocity and still clears the
acceleration. -/
theorem update_semi_implicit_euler (p : Particle) (dt : ℚ) :
    (p.update dt).velocity.x = p.velocity.x + p.acceleration.x * dt ∧
    (p.update dt).velocity.y = p.velocity.y + p.acceleration.y * dt ∧
    (p.update dt).position.x = p.position.x + (p.update dt).velocity.x * dt ∧
    (p.update dt).position.y = p.position.y + (p.update dt).velocity.y * dt ∧
    (p.update dt).acceleration = ⟨0, 0⟩ ∧
    (p.update dt).mass = p.mass ∧
    (p.update 0).position = p.position ∧
    (p.update 0).velocity = p.velocity ∧
    (p.update 0).acceleration = ⟨0, 0⟩ := by
  refine ⟨rfl, rfl, rfl, rfl, rfl, rfl, ?_, ?_, rfl⟩
  · simp [Particle.update, Vector2f.ext_iff_xy]
  · simp [Particle.update, Vector2f.ext_iff_xy]

/-! ## C2: force accumulation -/

@[simp] theorem Particle.applyForce_mass (p : Particle) (F : Vector2f) :
    (p.applyForce F).mass = p.mass := rfl

/-- Applying a list of forces in sequence adds the sum of the forces, divided by the
mass, to the acceleration and changes nothing else. -/
theorem Particle.foldl_applyForce (Fs : List Vector2f) (p : Particle) :
    Fs.foldl Particle.applyForce p =
      { p with acceleration :=
          ⟨p.acceleration.x + (Fs.map Vector2f.x).sum / p.mass,
           p.acceleration.y + (Fs.map Vector2f.y).sum / p.mass⟩ } := by
  induction Fs generalizing p with
  | nil => simp
  | cons F Fs ih =>
    rw [List.foldl_cons, ih]
    simp only [Particle.applyForce, List.map_cons, List.sum_cons, Vector2f.add_x,
      Vector2f.add_y, Vector2f.divScalar_x, Vector2f.divScalar_y, add_div, add_assoc]

/-- C2. For a particle of positive mass, `applyForce(F)` adds `F/mass` to the
acceleration (so mass times the change of acceleration is `F`) and leaves position,
velocity and mass as they were; applying a list of forces before an update gives the
old acceleration plus the sum of the forces divided by the mass, whatever the order in
which the forces are applied. -/
theorem applyForce_accumulates (p : Particle) (hm : 0 < p.mass) (F : Vector2f)
    (Fs : List Vector2f) :
    (p.applyForce F).acceleration.x = p.acceleration.x + F.x / p.mass ∧
    (p.applyForce F).acceleration.y = p.acceleration.y + F.y / p.mass ∧
    p.mass * ((p.applyForce F).acceleration.x - p.acceleration.x) = F.x ∧
    p.mass * ((p.applyForce F).acceleration.y - p.acceleration.y) = F.y ∧
    (p.applyForce F).position = p.position ∧
    (p.applyForce F).velocity = p.velocity ∧
    (p.applyForce F).mass = p.mass ∧
    (Fs.foldl Particle.applyForce p).acceleration.x
      = p.acceleration.x + (Fs.map Vector2f.x).sum / p.mass ∧
    (Fs.foldl Particle.applyForce p).acceleration.y
      = p.acceleration.y + (Fs.map Vector2f.y).sum / p.mass ∧
    (Fs.foldl Particle.applyForce p).position = p.position ∧
    (Fs.foldl Particle.applyForce p).velocity = p.velocity ∧
    (Fs.foldl Particle.applyForce p).mass = p.mass ∧
    ∀ Gs : List Vector2f, Fs.Perm Gs →
      Gs.foldl Particle.applyForce p = Fs.foldl Particle.applyForce p := by
  have hne : p.mass ≠ 0 := ne_of_gt hm
  refine ⟨rfl, rfl, ?_, ?_, rfl, rfl, rfl, ?_, ?_, ?_, ?_, ?_, ?_⟩
  · simp only [Particle.applyForce, Vector2f.add_x, Vector2f.divScalar_x]
    field_simp
    ring
  · simp only [Particle.applyForce, Vector2f.add_y, Vector2f.divScalar_y]
    field_simp
    ring
  · rw [Particle.foldl_applyForce]
  · rw [Particle.foldl_applyForce]
  · rw [Particle.foldl_applyForce]
  · rw [Particle.foldl_applyForce]
  · rw [Particle.foldl_applyForce]
  · intro Gs hperm
    rw [Particle.foldl_applyForce, Particle.foldl_applyForce,
      (hperm.map Vector2f.x).sum_eq, (hperm.map Vector2f.y).sum_eq]

/-- Witness for C2: mass 2, acceleration (1, 1), the forces (4, 6) and (2, -2) applied
in either order give acceleration (4, 3). -/
theorem applyForce_accumulates_witness :
    (0 : ℚ) < 2 ∧
    [(⟨2, -2⟩ : Vector2f), ⟨4, 6⟩].foldl Particle.applyForce
        { position := ⟨0, 0⟩, velocity := ⟨0, 0⟩, acceleration := ⟨1, 1⟩, mass := 2 }
      = [(⟨4, 6⟩ : Vector2f), ⟨2, -2⟩].foldl Particle.applyForce
        { position := ⟨0, 0⟩, velocity := ⟨0, 0⟩, acceleration := ⟨1, 1⟩, mass := 2 } :=
  ⟨by norm_num,
    (applyForce_accumulates
      { position := ⟨0, 0⟩, velocity := ⟨0, 0⟩, acceleration := ⟨1, 1⟩, mass := 2 }
      (by norm_num) ⟨0, 0⟩ [⟨4, 6⟩, ⟨2, -2⟩]).2.2.2.2.2.2.2.2.2.2.2.2
      [⟨2, -2⟩, ⟨4, 6⟩] (List.Perm.swap _ _ _)⟩

/-! ## C3: the drag coefficient -/

/-- C3. With `s` the speed in pixels per second and
`re = AIR_DENSITY*(s/PIXELS_PER_M)*(2*BALL_RADIUS)/AIR_VISCOSITY`, exactly one row of
the regime table applies, and `calculateDragCoefficient` returns the coefficient of
every row that applies: 0.47 below the rest threshold, else `24/max(re, 0.001)` below
0.1, the transitional formula on `[0.1, 1000)`, 0.44 on `[1000, 300000)` and 0.1 from
300000 on. -/
theorem calculateDragCoefficient_regimes (L : StdLib) (p : Particle) :
    (∃! r : Regime,
      Regime.applies (p.speedPixels L)
        (AIR_DENSITY * (p.speedPixels L / PIXELS_PER_M) * (2 * BALL_RADIUS) / AIR_VISCOSITY)
        r) ∧
    ∀ r : Regime,
      Regime.applies (p.speedPixels L)
        (AIR_DENSITY * (p.speedPixels L / PIXELS_PER_M) * (2 * BALL_RADIUS) / AIR_VISCOSITY)
        r →
      p.calculateDragCoefficient L =
        Regime.coefficient L
          (AIR_DENSITY * (p.speedPixels L / PIXELS_PER_M) * (2 * BALL_RADIUS) / AIR_VISCOSITY)
          r := by
  have hre : p.calculateReynoldsNumber (p.speedPixels L / PIXELS_PER_M)
      = AIR_DENSITY * (p.speedPixels L / PIXELS_PER_M) * (2 * BALL_RADIUS) / AIR_VISCOSITY := by
    norm_num [Particle.calculateReynoldsNumber]
  have hcd : p.calculateDragCoefficient L =
      if p.speedPixels L < 0.01 then 0.47
      else if p.calculateReynoldsNumber (p.speedPixels L / PIXELS_PER_M) < 0.1 then
        24.0 / max (p.calculateReynoldsNumber (p.speedPixels L / PIXELS_PER_M)) 0.001
      else if p.calculateReynoldsNumber (p.speedPixels L / PIXELS_PER_M) < 1000.0 then
        24.0 / p.calculateReynoldsNumber (p.speedPixels L / PIXELS_PER_M) *
          (1.0 + 0.15 * L.pow (p.calculateReynoldsNumber (p.speedPixels L / PIXELS_PER_M)) 0.687)
      else if p.calculateReynoldsNumber (p.speedPixels L / PIXELS_PER_M) < 300000.0 then 0.44
      else 0.1 := rfl
  rw [hcd, hre]
  generalize p.speedPixels L = s
  generalize AIR_DENSITY * (s / PIXELS_PER_M) * (2 * BALL_RADIUS) / AIR_VISCOSITY = re
  constructor
  · by_cases h1 : s < 0.01
    · refine ⟨.rest, h1, ?_⟩
      intro r hr
      cases r <;> simp only [Regime.applies] at hr <;> first | rfl | (exfalso; linarith)
    · have h1' : (0.01 : ℚ) ≤ s := not_lt.mp h1
      by_cases h2 : re < 0.1
      · refine ⟨.stokes, ⟨h1', h2⟩, ?_⟩
        intro r hr
        cases r <;> simp only [Regime.applies] at hr <;>
          first | rfl | (exfalso; linarith)
      · have h2' : (0.1 : ℚ) ≤ re := not_lt.mp h2
        by_cases h3 : re < 1000
        · refine ⟨.transitional, ⟨h1', h2', h3⟩, ?_⟩
          intro r hr
          cases r <;> simp only [Regime.applies] at hr <;>
            first | rfl | (exfalso; linarith)
        · have h3' : (1000 : ℚ) ≤ re := not_lt.mp h3
          by_cases h4 : re < 300000
          · refine ⟨.newton, ⟨h1', h3', h4⟩, ?_⟩
            intro r hr
            cases r <;> simp only [Regime.applies] at hr <;>
              first | rfl | (exfalso; linarith)
          · have h4' : (300000 : ℚ) ≤ re := not_lt.mp h4
            refine ⟨.postCritical, ⟨h1', h4'⟩, ?_⟩
            intro r hr
            cases r <;> simp only [Regime.applies] at hr <;>
              first | rfl | (exfalso; linarith)
  · intro r hr
    cases r <;> simp only [Regime.applies] at hr <;> simp only [Regime.coefficient]
    · rw [if_pos hr]
    · rw [if_neg (not_lt.mpr hr.1), if_pos hr.2]; norm_num
    · rw [if_neg (not_lt.mpr hr.1), if_neg (not_lt.mpr hr.2.1), if_pos (by linarith [hr.2.2])]
      norm_num
    · rw [if_neg (not_lt.mpr hr.1), if_neg (by linarith [hr.2.1]),
        if_neg (by linarith [hr.2.1]), if_pos (by linarith [hr.2.2])]
    · rw [if_neg (not_lt.mpr hr.1), if_neg (by linarith [hr.2]),
        if_neg (by linarith [hr.2]), if_neg (by linarith [hr.2])]

/-! ## C4, C5: the drag force -/

theorem Particle.applyDrag_of_moving (L : StdLib) (p : Particle) (dt : ℚ)
    (hs : 0.01 ≤ p.speedPixels L) : p.applyDrag L dt = p.applyForce (p.dragForce L) := by
  show (if p.speedPixels L < 0.01 then p else p.applyForce (p.dragForce L)) = _
  rw [if_neg (not_lt.mpr hs)]

theorem Particle.applyDrag_of_rest (L : StdLib) (p : Particle) (dt : ℚ)
    (hs : p.speedPixels L < 0.01) : p.applyDrag L dt = p := by
  show (if p.speedPixels L < 0.01 then p else p.applyForce (p.dragForce L)) = _
  rw [if_pos hs]

/-- C5. At rest the drag force is exactly zero: when the speed is below 0.01 pixels per
second, `applyDrag` returns the particle unchanged (position, velocity, acceleration
and mass), so it adds the zero vector to the acceleration. -/
theorem applyDrag_at_rest (L : StdLib) (p : Particle) (deltaTime : ℚ)
    (hs : L.sqrt (p.velocity.x * p.velocity.x + p.velocity.y * p.velocity.y) < 0.01) :
    p.applyDrag L deltaTime = p ∧
    (p.applyDrag L deltaTime).acceleration.x = p.acceleration.x + 0 ∧
    (p.applyDrag L deltaTime).acceleration.y = p.acceleration.y + 0 := by
  have h := p.applyDrag_of_rest L deltaTime hs
  rw [h]
  simp

/-- Witness for C5: a particle with velocity (0, 0) and a pending acceleration. -/
theorem applyDrag_at_rest_witness :
    Particle.applyDrag exampleLib
      { position := ⟨640, 100⟩, velocity := ⟨0, 0⟩, acceleration := ⟨0, 566⟩, mass := 2 } 1
    = { position := ⟨640, 100⟩, velocity := ⟨0, 0⟩, acceleration := ⟨0, 566⟩, mass := 2 } :=
  (applyDrag_at_rest exampleLib
    { position := ⟨640, 100⟩, velocity := ⟨0, 0⟩, acceleration := ⟨0, 566⟩, mass := 2 } 1
    (by norm_num [exampleLib, Rat.sqrt])).1

/-! ## C6: the order of an active tick -/

theorem Simulation.integrate_eq (L : StdLib) (p : Particle) (dt : ℚ) :
    Simulation.integrate L p dt =
      (p.applyForce (⟨0, GRAVITY * p.mass⟩ + dragOf L p)).update dt := by
  show ((p.applyForce ⟨0, GRAVITY * p.mass⟩).applyDrag L dt).update dt = _
  unfold dragOf
  by_cases h : p.speedPixels L < 0.01
  · have h1 : (p.applyForce ⟨0, GRAVITY * p.mass⟩).speedPixels L < 0.01 := h
    rw [Particle.applyDrag_of_rest L _ dt h1, if_pos h]
    simp [Particle.applyForce, Particle.update, Vector2f.ext_iff_xy]
  · have h1 : 0.01 ≤ (p.applyForce ⟨0, GRAVITY * p.mass⟩).speedPixels L := not_lt.mp h
    rw [Particle.applyDrag_of_moving L _ dt h1, if_neg h]
    have h2 : (p.applyForce ⟨0, GRAVITY * p.mass⟩).dragForce L = p.dragForce L := rfl
    rw [h2]
    simp [Particle.applyForce, Particle.update, Vector2f.ext_iff_xy, add_div, add_assoc]

/-- C6. One active tick applies gravity, then the drag computed from the velocity the
tick starts with, then integrates once.  For a started, unpaused, unfinished state with
acceleration (0,0) and mass `m > 0`: an iteration in which neither the reset key nor
the pause key is held runs the active tick; the tick is the floor check applied to the
integrated body; the gravity force adds exactly `(0, GRAVITY)` to the acceleration
and `GRAVITY = 9.81*PIXELS_PER_M`; the integrated body has velocity
`v + ((0, GRAVITY) + d(v)/m)*dt` and position `p + v'*dt`. -/
theorem active_tick_gravity_drag_integrate (L : StdLib) (s : Simulation) (inp : FrameInput)
    (hstarted : s.gameStarted = true) (hpaused : s.isPaused = false)
    (hfinished : s.simulationFinished = false)
    (hacc : s.particle.acceleration = ⟨0, 0⟩) (hm : 0 < s.particle.mass) :
    (inp.num0 = false → inp.backspace = false →
      Simulation.runIteration L s inp =
        Simulation.activeTick L
          (if inp.closeRequested then { s with windowOpen := false } else s) inp) ∧
    Simulation.activeTick L s inp =
      (fun s2 : Simulation => { s2 with particleShape := s2.particle.position })
        (if (Simulation.integrate L s.particle inp.deltaTime).position.y > BASE_Y then
          Simulation.floorContact L
            { s with particle := Simulation.integrate L s.particle inp.deltaTime
                     timeString := L.fixed2 inp.time ++ " s" } inp
        else
          { s with particle := Simulation.integrate L s.particle inp.deltaTime
                   timeString := L.fixed2 inp.time ++ " s" }) ∧
    GRAVITY = 9.81 * PIXELS_PER_M ∧
    (s.particle.applyForce ⟨0, GRAVITY * s.particle.mass⟩).acceleration = ⟨0, GRAVITY⟩ ∧
    (Simulation.integrate L s.particle inp.deltaTime).velocity.x =
      s.particle.velocity.x + (0 + (dragOf L s.particle).x / s.particle.mass) * inp.deltaTime ∧
    (Simulation.integrate L s.particle inp.deltaTime).velocity.y =
      s.particle.velocity.y
        + (GRAVITY + (dragOf L s.particle).y / s.particle.mass) * inp.deltaTime ∧
    (Simulation.integrate L s.particle inp.deltaTime).position.x =
      s.particle.position.x
        + (Simulation.integrate L s.particle inp.deltaTime).velocity.x * inp.deltaTime ∧
    (Simulation.integrate L s.particle inp.deltaTime).position.y =
      s.particle.position.y
        + (Simulation.integrate L s.particle inp.deltaTime).velocity.y * inp.deltaTime := by
  have hne : s.particle.mass ≠ 0 := ne_of_gt hm
  refine ⟨?_, rfl, rfl, ?_, ?_, ?_, ?_, ?_⟩
  · intro hnum0 hback
    cases hc : inp.closeRequested <;>
      simp [Simulation.runIteration, hstarted, hpaused, hfinished, hnum0, hback, hc]
  · simp [Particle.applyForce, hacc, Vector2f.ext_iff_xy, hne]
  · rw [Simulation.integrate_eq]
    simp [Particle.applyForce, Particle.update, hacc]
  · rw [Simulation.integrate_eq]
    simp [Particle.applyForce, Particle.update, hacc, add_div, hne]
  · rw [Simulation.integrate_eq]; rfl
  · rw [Simulation.integrate_eq]; rfl

/-- Witness for C6: from rest, one tick of a tenth of a second gives the body the
downward velocity `GRAVITY / 10`. -/
theorem active_tick_gravity_drag_integrate_witness :
    exampleNearFloor.gameStarted = true ∧ exampleNearFloor.isPaused = false ∧
    exampleNearFloor.simulationFinished = false ∧
    exampleNearFloor.particle.acceleration = ⟨0, 0⟩ ∧ 0 < exampleNearFloor.particle.mass ∧
    (Simulation.integrate exampleLib exampleNearFloor.particle
        (exampleFrame (1 / 10) 0).deltaTime).velocity.y =
      exampleNearFloor.particle.velocity.y
        + (GRAVITY + (dragOf exampleLib exampleNearFloor.particle).y
            / exampleNearFloor.particle.mass) * (exampleFrame (1 / 10) 0).deltaTime :=
  ⟨rfl, rfl, rfl, rfl, by norm_num [exampleNearFloor],
    (active_tick_gravity_drag_integrate exampleLib exampleNearFloor (exampleFrame (1 / 10) 0)
      rfl rfl rfl rfl (by norm_num [exampleNearFloor])).2.2.2.2.2.1⟩

/-! ## C7: floor contact -/

theorem Simulation.activeTick_of_contact (L : StdLib) (s : Simulation) (inp : FrameInput)
    (h : (Simulation.integrate L s.particle inp.deltaTime).position.y > BASE_Y) :
    Simulation.activeTick L s inp =
      (fun s2 : Simulation => { s2 with particleShape := s2.particle.position })
        (Simulation.floorContact L
          { s with particle := Simulation.integrate L s.particle inp.deltaTime
                   timeString := L.fixed2 inp.time ++ " s" } inp) := by
  unfold Simulation.activeTick
  simp only [if_pos h]

theorem Simulation.activeTick_of_no_contact (L : StdLib) (s : Simulation) (inp : FrameInput)
    (h : ¬ (Simulation.integrate L s.particle inp.deltaTime).position.y > BASE_Y) :
    Simulation.activeTick L s inp =
      { s with particle := Simulation.integrate L s.particle inp.deltaTime
               timeString := L.fixed2 inp.time ++ " s"
               particleShape := (Simulation.integrate L s.particle inp.deltaTime).position } := by
  unfold Simulation.activeTick
  simp only [if_neg h]

/-- C7. In a tick of an unfinished run whose integrated `position.y` exceeds `BASE_Y`,
with impact speed `S = |velocity.y|`: if `S > 2.0` the tick ends with
`velocity.y = -0.7 * velocity.y` (arriving with downward speed `S`, the body leaves with
upward speed `0.7*S`) and `simulationFinished` still false; if `S <= 2.0` it ends with
`velocity.y = 0` and `simulationFinished = true`.  `velocity.x` is as integrated in both
cases. -/
theorem floor_contact_restitution (L : StdLib) (s : Simulation) (inp : FrameInput)
    (hfinished : s.simulationFinished = false)
    (hcontact : (Simulation.integrate L s.particle inp.deltaTime).position.y > BASE_Y) :
    (|(Simulation.integrate L s.particle inp.deltaTime).velocity.y| > 2.0 →
      (Simulation.activeTick L s inp).particle.velocity.y =
        -0.7 * (Simulation.integrate L s.particle inp.deltaTime).velocity.y ∧
      (Simulation.activeTick L s inp).simulationFinished = false) ∧
    (|(Simulation.integrate L s.particle inp.deltaTime).velocity.y| ≤ 2.0 →
      (Simulation.activeTick L s inp).particle.velocity.y = 0 ∧
      (Simulation.activeTick L s inp).simulationFinished = true) ∧
    (Simulation.activeTick L s inp).particle.velocity.x =
      (Simulation.integrate L s.particle inp.deltaTime).velocity.x ∧
    (∀ S : ℚ, 2.0 < S → (Simulation.integrate L s.particle inp.deltaTime).velocity.y = S →
      (Simulation.activeTick L s inp).particle.velocity.y = -(0.7 * S)) := by
  rw [Simulation.activeTick_of_contact L s inp hcontact]
  generalize Simulation.integrate L s.particle inp.deltaTime = b
  have hbig : |b.velocity.y| > 2.0 →
      ((fun s2 : Simulation => { s2 with particleShape := s2.particle.position })
        (Simulation.floorContact L
          { s with particle := b, timeString := L.fixed2 inp.time ++ " s" }
          inp)).particle.velocity.y = -0.7 * b.velocity.y ∧
      ((fun s2 : Simulation => { s2 with particleShape := s2.particle.position })
        (Simulation.floorContact L
          { s with particle := b, timeString := L.fixed2 inp.time ++ " s" }
          inp)).simulationFinished = false := by
    intro hS
    unfold Simulation.floorContact
    simp only [if_pos hS]
    refine ⟨?_, ?_⟩
    · split_ifs <;> simp [mul_comm]
    · split_ifs <;> simp [hfinished]
  refine ⟨hbig, ?_, ?_, ?_⟩
  · intro hS
    unfold Simulation.floorContact
    simp only [if_neg (not_lt.mpr hS)]
    simp
  · unfold Simulation.floorContact
    by_cases hS : |b.velocity.y| > 2.0
    · simp only [if_pos hS]; split_ifs <;> simp
    · simp only [if_neg hS]; split_ifs <;> simp
  · intro S hS hv
    have habs : |b.velocity.y| > 2.0 := by
      rw [hv, abs_of_pos (by linarith)]
      exact hS
    rw [(hbig habs).1, hv]
    ring

/-- Witness for C7: the body at rest 8 pixels above the floor, one tick of one second:
it arrives with downward speed `GRAVITY` and leaves with upward speed `0.7*GRAVITY`. -/
theorem floor_contact_restitution_witness :
    exampleNearFloor.simulationFinished = false ∧
    (Simulation.integrate exampleLib exampleNearFloor.particle
      (exampleFrame 1 1).deltaTime).position.y > BASE_Y ∧
    (Simulation.activeTick exampleLib exampleNearFloor (exampleFrame 1 1)).particle.velocity.y
      = -(0.7 * GRAVITY) :=
  have hcontact : (Simulation.integrate exampleLib exampleNearFloor.particle
      (exampleFrame 1 1).deltaTime).position.y > BASE_Y := by
    norm_num [Simulation.integrate, Particle.applyForce, Particle.applyDrag, Particle.update,
      exampleNearFloor, exampleFrame, exampleLib, Rat.sqrt, GRAVITY, PIXELS_PER_M, BASE_Y,
      WINDOW_HEIGHT, PARTICLE_SIZE]
  ⟨rfl, hcontact,
    (floor_contact_restitution exampleLib exampleNearFloor (exampleFrame 1 1) rfl hcontact).2.2.2
      GRAVITY (by norm_num [GRAVITY, PIXELS_PER_M])
      (by norm_num [Simulation.integrate, Particle.applyForce, Particle.applyDrag,
        Particle.update, exampleNearFloor, exampleFrame, exampleLib, Rat.sqrt])⟩

/-- For a body of non-zero mass, where the division by the mass is a finite number:
after an active tick `position.y <= BASE_Y`, where
`BASE_Y = WINDOW_HEIGHT - PARTICLE_SIZE = 708`; when the integrated `position.y` was
strictly greater than `BASE_Y` the resulting `position.y` is exactly `BASE_Y` and
`position.x` is as integrated; when it was not greater, no contact handling happens:
the body is the integrated body and the flags and the phase are those of the state the
tick started in. -/
theorem Simulation.activeTick_floor (L : StdLib) (s : Simulation) (inp : FrameInput)
    (_hm : s.particle.mass ≠ 0) :
    BASE_Y = ((WINDOW_HEIGHT - PARTICLE_SIZE : Int) : ℚ) ∧ BASE_Y = 708 ∧
    (Simulation.activeTick L s inp).particle.position.y ≤ BASE_Y ∧
    ((Simulation.integrate L s.particle inp.deltaTime).position.y > BASE_Y →
      (Simulation.activeTick L s inp).particle.position.y = BASE_Y ∧
      (Simulation.activeTick L s inp).particle.position.x =
        (Simulation.integrate L s.particle inp.deltaTime).position.x) ∧
    (¬ (Simulation.integrate L s.particle inp.deltaTime).position.y > BASE_Y →
      (Simulation.activeTick L s inp).particle =
        Simulation.integrate L s.particle inp.deltaTime ∧
      (Simulation.activeTick L s inp).hasTouchedGround = s.hasTouchedGround ∧
      (Simulation.activeTick L s inp).timeToFirstContact = s.timeToFirstContact ∧
      (Simulation.activeTick L s inp).simulationFinished = s.simulationFinished ∧
      (Simulation.activeTick L s inp).finishedTimeString = s.finishedTimeString ∧
      (Simulation.activeTick L s inp).isPaused = s.isPaused ∧
      (Simulation.activeTick L s inp).gameStarted = s.gameStarted) := by
  have hclamp : (Simulation.integrate L s.particle inp.deltaTime).position.y > BASE_Y →
      (Simulation.activeTick L s inp).particle.position.y = BASE_Y ∧
      (Simulation.activeTick L s inp).particle.position.x =
        (Simulation.integrate L s.particle inp.deltaTime).position.x := by
    intro h
    rw [Simulation.activeTick_of_contact L s inp h]
    unfold Simulation.floorContact
    constructor <;> (simp only []; split_ifs <;> simp)
  refine ⟨rfl, by norm_num [BASE_Y, WINDOW_HEIGHT, PARTICLE_SIZE], ?_, hclamp, ?_⟩
  · by_cases h : (Simulation.integrate L s.particle inp.deltaTime).position.y > BASE_Y
    · exact le_of_eq (hclamp h).1
    · rw [Simulation.activeTick_of_no_contact L s inp h]
      exact not_lt.mp h
  · intro h
    rw [Simulation.activeTick_of_no_contact L s inp h]
    exact ⟨rfl, rfl, rfl, rfl, rfl, rfl, rfl⟩

/-! ## The example session -/

theorem exampleBounced_eq :
    exampleBounced =
      { windowOpen := true
        simulationFinished := false
        gameStarted := true
        isPaused := false
        timeString := " s"
        finishedTimeString := ""
        particle :=
          { position := ⟨640, 708⟩, velocity := ⟨0, -19838763 / 50000⟩,
            acceleration := ⟨0, 0⟩, mass := 1 }
        particleShape := ⟨640, 708⟩
        hasTouchedGround := true
        timeToFirstContact := 1
        PARTICLE_PIXELS_HEIGHT := 592 } := by
  have h : floatToInt (BASE_Y - 2 * PIXELS_PER_M) = 592 := by
    norm_num [floatToInt, BASE_Y, PIXELS_PER_M, WINDOW_HEIGHT, PARTICLE_SIZE]
  simp only [exampleBounced, Simulation.create, h]
  norm_num [Simulation.runIteration, Simulation.resetSimulation, Simulation.activeTick,
    Simulation.floorContact, Simulation.integrate, Particle.applyForce, Particle.applyDrag,
    Particle.update, Particle.create, exampleStartFrame, exampleFrame, exampleLib, Rat.sqrt,
    GRAVITY, PIXELS_PER_M, BASE_Y, WINDOW_HEIGHT, PARTICLE_SIZE, WINDOW_WIDTH,
    Vector2f.ext_iff_xy, lt_abs]

/-! ## C9: the first-contact latch -/

/-- What an active tick does to the latch: the flag becomes true on contact, and the
time is assigned on a contact that finds the flag false. -/
theorem Simulation.activeTick_latch (L : StdLib) (s : Simulation) (inp : FrameInput) :
    (Simulation.activeTick L s inp).hasTouchedGround =
      (s.hasTouchedGround ||
        decide ((Simulation.integrate L s.particle inp.deltaTime).position.y > BASE_Y)) ∧
    (Simulation.activeTick L s inp).timeToFirstContact =
      (if (Simulation.integrate L s.particle inp.deltaTime).position.y > BASE_Y
          ∧ s.hasTouchedGround = false
        then inp.contactTime else s.timeToFirstContact) ∧
    (Simulation.activeTick L s inp).gameStarted = s.gameStarted := by
  by_cases h : (Simulation.integrate L s.particle inp.deltaTime).position.y > BASE_Y
  · rw [Simulation.activeTick_of_contact L s inp h]
    unfold Simulation.floorContact
    cases hh : s.hasTouchedGround <;> simp [h, hh] <;> split_ifs <;> simp
  · rw [Simulation.activeTick_of_no_contact L s inp h]
    simp [h]

/-- An iteration that does not call `resetSimulation` either leaves the body, the latch
and the phase flags as they are, or runs the active tick on a state that has the same
body, latch and finished flag. -/
theorem Simulation.runIteration_cases (L : StdLib) (s : Simulation) (inp : FrameInput)
    (hnum0 : inp.num0 = false) (hstart : inp.enterStart = false ∨ s.gameStarted = true) :
    ∃ t : Simulation,
      t.particle = s.particle ∧ t.hasTouchedGround = s.hasTouchedGround ∧
      t.timeToFirstContact = s.timeToFirstContact ∧ t.gameStarted = s.gameStarted ∧
      t.simulationFinished = s.simulationFinished ∧
      t.finishedTimeString = s.finishedTimeString ∧
      (Simulation.runIteration L s inp = t ∨
        (t.isPaused = false ∧ t.simulationFinished = false ∧
          Simulation.runIteration L s inp = Simulation.activeTick L t inp)) := by
  obtain ⟨w, fin, st, pa, ts, fts, part, shape, htg, ttfc, pph⟩ := s
  obtain ⟨cl, es, n0, bs, er, dt, t1, t2, t3⟩ := inp
  simp only at hnum0 hstart
  subst hnum0
  unfold Simulation.runIteration
  rcases hstart with h | h <;> subst h <;>
    cases cl <;> cases fin <;> cases pa <;> cases bs <;> cases er <;>
    first
      | (cases st <;> simp <;>
          first
            | exact ⟨_, rfl, rfl, rfl, rfl, rfl, rfl, Or.inl rfl⟩
            | exact ⟨_, rfl, rfl, rfl, rfl, rfl, rfl, Or.inr ⟨rfl, rfl, rfl⟩⟩)
      | (cases es <;> simp <;>
          first
            | exact ⟨_, rfl, rfl, rfl, rfl, rfl, rfl, Or.inl rfl⟩
            | exact ⟨_, rfl, rfl, rfl, rfl, rfl, rfl, Or.inr ⟨rfl, rfl, rfl⟩⟩)

theorem Simulation.runIteration_gameStarted (L : StdLib) (s : Simulation) (inp : FrameInput)
    (h : s.gameStarted = true) : (Simulation.runIteration L s inp).gameStarted = true := by
  obtain ⟨w, fin, st, pa, ts, fts, part, shape, htg, ttfc, pph⟩ := s
  obtain ⟨cl, es, n0, bs, er, dt, t1, t2, t3⟩ := inp
  simp only at h
  subst h
  unfold Simulation.runIteration
  cases cl <;> cases es <;> cases n0 <;> cases fin <;> cases pa <;> cases bs <;> cases er <;>
    simp [Simulation.resetSimulation, Simulation.activeTick_latch]

/-- Once latched, an iteration without reset keeps the latch. -/
theorem Simulation.runIteration_latched (L : StdLib) (s : Simulation) (inp : FrameInput)
    (hnum0 : inp.num0 = false) (hstart : inp.enterStart = false ∨ s.gameStarted = true)
    (hlatched : s.hasTouchedGround = true) :
    (Simulation.runIteration L s inp).hasTouchedGround = true ∧
    (Simulation.runIteration L s inp).timeToFirstContact = s.timeToFirstContact := by
  obtain ⟨t, -, h2, h3, -, -, -, h | ⟨-, -, h⟩⟩ := Simulation.runIteration_cases L s inp hnum0 hstart
  · rw [h, h2, h3]; exact ⟨hlatched, rfl⟩
  · have hl := Simulation.activeTick_latch L t inp
    rw [h, hl.1, hl.2.1, h2, h3, hlatched]
    simp

/-- Once latched, a run of frames without reset keeps the latch. -/
theorem Simulation.run_latched (L : StdLib) (frames : List FrameInput) (s : Simulation)
    (hnum0 : ∀ f ∈ frames, f.num0 = false) (hstarted : s.gameStarted = true)
    (hlatched : s.hasTouchedGround = true) :
    (Simulation.run L s frames).hasTouchedGround = true ∧
    (Simulation.run L s frames).timeToFirstContact = s.timeToFirstContact := by
  induction frames generalizing s with
  | nil => exact ⟨hlatched, rfl⟩
  | cons f rest ih =>
    unfold Simulation.run
    by_cases hw : s.windowOpen = true
    · rw [if_pos hw]
      have hf := Simulation.runIteration_latched L s f (hnum0 f (List.mem_cons_self _ _))
        (Or.inr hstarted) hlatched
      have := ih (Simulation.runIteration L s f)
        (fun g hg => hnum0 g (List.mem_cons_of_mem _ hg))
        (Simulation.runIteration_gameStarted L s f hstarted) hf.1
      exact ⟨this.1, this.2.trans hf.2⟩
    · rw [if_neg hw]; exact ⟨hlatched, rfl⟩

/-- C9. The first-contact latch.  In an active tick: a floor contact that finds
`hasTouchedGround` false sets it and assigns the elapsed time read at that tick to
`timeToFirstContact`; a tick without contact leaves both as they are; a tick that finds
the flag true (a later bounce, the settling contact) keeps it true and keeps the time.
In a loop iteration that does not call `resetSimulation`: a set flag stays set with the
same time, and an iteration in which the flag goes from false to true assigns that
iteration's elapsed time.  Over every sequence of frames with no reset, a set flag stays
set with the same time.  `resetSimulation` sets `hasTouchedGround = false` and
`timeToFirstContact = 0`. -/
theorem first_contact_latch (L : StdLib) (s : Simulation) (inp : FrameInput)
    (frames : List FrameInput) :
    ((Simulation.integrate L s.particle inp.deltaTime).position.y > BASE_Y →
      s.hasTouchedGround = false →
      (Simulation.activeTick L s inp).hasTouchedGround = true ∧
      (Simulation.activeTick L s inp).timeToFirstContact = inp.contactTime) ∧
    (¬ (Simulation.integrate L s.particle inp.deltaTime).position.y > BASE_Y →
      (Simulation.activeTick L s inp).hasTouchedGround = s.hasTouchedGround ∧
      (Simulation.activeTick L s inp).timeToFirstContact = s.timeToFirstContact) ∧
    (s.hasTouchedGround = true →
      (Simulation.activeTick L s inp).hasTouchedGround = true ∧
      (Simulation.activeTick L s inp).timeToFirstContact = s.timeToFirstContact) ∧
    (inp.num0 = false → (inp.enterStart = false ∨ s.gameStarted = true) →
      s.hasTouchedGround = true →
      (Simulation.runIteration L s inp).hasTouchedGround = true ∧
      (Simulation.runIteration L s inp).timeToFirstContact = s.timeToFirstContact) ∧
    (inp.num0 = false → (inp.enterStart = false ∨ s.gameStarted = true) →
      s.hasTouchedGround = false →
      (Simulation.runIteration L s inp).hasTouchedGround = true →
      (Simulation.runIteration L s inp).timeToFirstContact = inp.contactTime) ∧
    ((∀ f ∈ frames, f.num0 = false) → s.gameStarted = true → s.hasTouchedGround = true →
      (Simulation.run L s frames).hasTouchedGround = true ∧
      (Simulation.run L s frames).timeToFirstContact = s.timeToFirstContact) ∧
    (Simulation.resetSimulation s).hasTouchedGround = false ∧
    (Simulation.resetSimulation s).timeToFirstContact = 0 := by
  have hl := Simulation.activeTick_latch L s inp
  refine ⟨?_, ?_, ?_, Simulation.runIteration_latched L s inp, ?_,
    Simulation.run_latched L frames s, rfl, ?_⟩
  · intro hc hf
    rw [hl.1, hl.2.1, hf, if_pos ⟨hc, rfl⟩]
    simp [hc]
  · intro hc
    rw [hl.1, hl.2.1, if_neg (fun h => hc h.1)]
    simp [hc]
  · intro ht
    rw [hl.1, hl.2.1, ht]
    simp
  · intro hnum0 hstart hf hres
    obtain ⟨t, -, h2, h3, -, -, -, h | ⟨-, -, h⟩⟩ :=
      Simulation.runIteration_cases L s inp hnum0 hstart
    · rw [h, h2, hf] at hres
      exact absurd hres (by simp)
    · have hlt := Simulation.activeTick_latch L t inp
      rw [h, hlt.1, h2, hf] at hres
      rw [h, hlt.2.1, h2, hf]
      simp only [Bool.false_or, decide_eq_true_eq] at hres
      rw [if_pos ⟨hres, rfl⟩]
  · norm_num [Simulation.resetSimulation]

/-- Witness for C9: in the example session the first frame latches the contact at
clock reading 1; the second frame, in which the body touches the floor again at clock
reading 2, keeps the flag and the latched time. -/
theorem first_contact_latch_witness :
    exampleBounced.hasTouchedGround = true ∧
    exampleBounced.gameStarted = true ∧
    (Simulation.runIteration exampleLib exampleBounced
      (exampleFrame (667 / 1000) 2)).hasTouchedGround = true ∧
    (Simulation.runIteration exampleLib exampleBounced
      (exampleFrame (667 / 1000) 2)).timeToFirstContact = exampleBounced.timeToFirstContact :=
  have h : exampleBounced.hasTouchedGround = true := by rw [exampleBounced_eq]
  have hs : exampleBounced.gameStarted = true := by rw [exampleBounced_eq]
  ⟨h, hs,
    (first_contact_latch exampleLib exampleBounced (exampleFrame (667 / 1000) 2) []).2.2.2.1
      rfl (Or.inr hs) h⟩

/-! ## C10: the finished phase -/

theorem Simulation.activeTick_isPaused (L : StdLib) (s : Simulation) (inp : FrameInput) :
    (Simulation.activeTick L s inp).isPaused = s.isPaused := by
  by_cases h : (Simulation.integrate L s.particle inp.deltaTime).position.y > BASE_Y
  · rw [Simulation.activeTick_of_contact L s inp h]
    unfold Simulation.floorContact
    simp only []
    split_ifs <;> rfl
  · rw [Simulation.activeTick_of_no_contact L s inp h]

theorem Simulation.activeTick_gameStarted (L : StdLib) (s : Simulation) (inp : FrameInput) :
    (Simulation.activeTick L s inp).gameStarted = s.gameStarted :=
  (Simulation.activeTick_latch L s inp).2.2

/-- One iteration keeps the invariant "a finished run is started and not paused". -/
theorem Simulation.runIteration_finished_inv (L : StdLib) (s : Simulation) (inp : FrameInput)
    (hinv : s.simulationFinished = true → s.gameStarted = true ∧ s.isPaused = false) :
    (Simulation.runIteration L s inp).simulationFinished = true →
      (Simulation.runIteration L s inp).gameStarted = true ∧
      (Simulation.runIteration L s inp).isPaused = false := by
  obtain ⟨w, fin, st, pa, ts, fts, part, shape, htg, ttfc, pph⟩ := s
  obtain ⟨cl, es, n0, bs, er, dt, t1, t2, t3⟩ := inp
  simp only at hinv
  unfold Simulation.runIteration
  cases cl <;> cases es <;> cases n0 <;> cases fin <;> cases st <;> cases pa <;> cases bs <;>
    cases er <;>
    simp [Simulation.resetSimulation, Simulation.activeTick_gameStarted,
      Simulation.activeTick_isPaused] at hinv ⊢

/-- In every state the program reaches, a finished run is started and not paused. -/
theorem Simulation.Reachable.finished_inv {L : StdLib} {s : Simulation}
    (h : Simulation.Reachable L s) :
    s.simulationFinished = true → s.gameStarted = true ∧ s.isPaused = false := by
  induction h with
  | start w m ht => intro hf; simp [Simulation.create] at hf
  | step inp _ _ ih => exact Simulation.runIteration_finished_inv L _ inp ih

/-- C10. Finished is frozen until reset: in every state the program reaches with
`simulationFinished = true`, and for every frame input in which the reset key is not
held, one loop iteration changes nothing but possibly the window flag: the body
(position, velocity, acceleration), `hasTouchedGround`, `timeToFirstContact`,
`finishedTimeString` and `simulationFinished` are unchanged, and a pause request is
ignored (`isPaused` stays false). -/
theorem finished_is_frozen (L : StdLib) (s : Simulation) (inp : FrameInput)
    (hreach : Simulation.Reachable L s) (hfinished : s.simulationFinished = true)
    (hnum0 : inp.num0 = false) :
    Simulation.runIteration L s inp =
      (if inp.closeRequested then { s with windowOpen := false } else s) ∧
    (Simulation.runIteration L s inp).particle.position = s.particle.position ∧
    (Simulation.runIteration L s inp).particle.velocity = s.particle.velocity ∧
    (Simulation.runIteration L s inp).particle.acceleration = s.particle.acceleration ∧
    (Simulation.runIteration L s inp).hasTouchedGround = s.hasTouchedGround ∧
    (Simulation.runIteration L s inp).timeToFirstContact = s.timeToFirstContact ∧
    (Simulation.runIteration L s inp).finishedTimeString = s.finishedTimeString ∧
    (Simulation.runIteration L s inp).simulationFinished = true ∧
    (Simulation.runIteration L s inp).isPaused = false := by
  obtain ⟨hstarted, hpaused⟩ := hreach.finished_inv hfinished
  have hrun : Simulation.runIteration L s inp =
      (if inp.closeRequested then { s with windowOpen := false } else s) := by
    obtain ⟨w, fin, st, pa, ts, fts, part, shape, htg, ttfc, pph⟩ := s
    obtain ⟨cl, es, n0, bs, er, dt, t1, t2, t3⟩ := inp
    simp only at hfinished hnum0 hstarted hpaused
    subst hfinished hnum0 hstarted hpaused
    unfold Simulation.runIteration
    cases cl <;> cases es <;> cases bs <;> cases er <;> simp
  rw [hrun]
  refine ⟨rfl, ?_, ?_, ?_, ?_, ?_, ?_, ?_, ?_⟩ <;> split_ifs <;> first | rfl | assumption

theorem exampleSettled_finished : exampleSettled.simulationFinished = true := by
  simp only [exampleSettled, exampleBounced_eq]
  norm_num [Simulation.runIteration, Simulation.resetSimulation, Simulation.activeTick,
    Simulation.floorContact, Simulation.integrate, Particle.applyForce, Particle.applyDrag,
    Particle.update, Particle.dragForce, Particle.calculateDragCoefficient,
    Particle.calculateCrossSection, Particle.calculateReynoldsNumber, AIR_DENSITY,
    AIR_VISCOSITY, BALL_RADIUS, PI, DRAG_MULTIPLIER, exampleFrame, exampleLib, Rat.sqrt,
    GRAVITY, PIXELS_PER_M, BASE_Y, WINDOW_HEIGHT, PARTICLE_SIZE, lt_abs]

theorem exampleSettled_reachable : Simulation.Reachable exampleLib exampleSettled :=
  Simulation.Reachable.step _
    (Simulation.Reachable.step _ (Simulation.Reachable.start true 1 2) rfl)
    (by rw [exampleBounced_eq])

/-- Witness for C10: the example session is finished after its second frame; a frame
in which the pause key and Enter are held leaves the whole state as it is. -/
theorem finished_is_frozen_witness :
    Simulation.Reachable exampleLib exampleSettled ∧
    exampleSettled.simulationFinished = true ∧
    examplePauseFrame.num0 = false ∧
    Simulation.runIteration exampleLib exampleSettled examplePauseFrame = exampleSettled :=
  ⟨exampleSettled_reachable, exampleSettled_finished, rfl,
    (finished_is_frozen exampleLib exampleSettled examplePauseFrame exampleSettled_reachable
      exampleSettled_finished rfl).1.trans
      (if_neg (by simp [examplePauseFrame, exampleFrame]))⟩

/-! ## C11: reset after the run has finished -/

theorem Simulation.activeTick_pixelsHeight (L : StdLib) (s : Simulation) (inp : FrameInput) :
    (Simulation.activeTick L s inp).PARTICLE_PIXELS_HEIGHT = s.PARTICLE_PIXELS_HEIGHT := by
  by_cases h : (Simulation.integrate L s.particle inp.deltaTime).position.y > BASE_Y
  · rw [Simulation.activeTick_of_contact L s inp h]
    unfold Simulation.floorContact
    simp only []
    split_ifs <;> rfl
  · rw [Simulation.activeTick_of_no_contact L s inp h]

/-- No iteration writes the global `PARTICLE_PIXELS_HEIGHT`. -/
theorem Simulation.runIteration_pixelsHeight (L : StdLib) (s : Simulation) (inp : FrameInput) :
    (Simulation.runIteration L s inp).PARTICLE_PIXELS_HEIGHT = s.PARTICLE_PIXELS_HEIGHT := by
  obtain ⟨w, fin, st, pa, ts, fts, part, shape, htg, ttfc, pph⟩ := s
  obtain ⟨cl, es, n0, bs, er, dt, t1, t2, t3⟩ := inp
  unfold Simulation.runIteration
  cases cl <;> cases es <;> cases n0 <;> cases fin <;> cases st <;> cases pa <;> cases bs <;>
    cases er <;>
    simp [Simulation.resetSimulation, Simulation.activeTick_pixelsHeight]

theorem Simulation.run_pixelsHeight (L : StdLib) (frames : List FrameInput) (s : Simulation) :
    (Simulation.run L s frames).PARTICLE_PIXELS_HEIGHT = s.PARTICLE_PIXELS_HEIGHT := by
  induction frames generalizing s with
  | nil => rfl
  | cons f rest ih =>
    unfold Simulation.run
    split_ifs
    · rw [ih, Simulation.runIteration_pixelsHeight]
    · rfl

/-- Every state of a run started from a reachable state is reachable. -/
theorem Simulation.run_reachable (L : StdLib) (frames : List FrameInput) (s : Simulation)
    (h : Simulation.Reachable L s) : Simulation.Reachable L (Simulation.run L s frames) := by
  induction frames generalizing s with
  | nil => exact h
  | cons f rest ih =>
    unfold Simulation.run
    by_cases hw : s.windowOpen = true
    · rw [if_pos hw]; exact ih _ (Simulation.Reachable.step f h hw)
    · rw [if_neg hw]; exact h

/-- C11. Reset round trip.  For every state `s` the program reaches from the
constructor with `simulationFinished = true`, and every frame in which the reset key
is held: the reset handler puts the body at exactly the position it was constructed
with, `(WINDOW_WIDTH/2, PARTICLE_PIXELS_HEIGHT)`, sets the velocity to (0,0), clears
`hasTouchedGround` and `timeToFirstContact`, and leaves the phase started, not paused,
not finished, which is the phase right after start; the iteration then goes on from
that state (the active tick runs unless the pause key holds it back). -/
theorem reset_round_trip (L : StdLib) (windowOpen : Bool) (mass height : ℚ)
    (frames : List FrameInput) (inp : FrameInput)
    (hfinished :
      (Simulation.run L (Simulation.create windowOpen mass height) frames).simulationFinished
        = true)
    (hreset : inp.num0 = true) :
    (Simulation.run L (Simulation.create windowOpen mass height)
        frames).resetKeyPressed.particle.position
      = (Simulation.create windowOpen mass height).particle.position ∧
    (Simulation.run L (Simulation.create windowOpen mass height)
        frames).resetKeyPressed.particle.position
      = ⟨((WINDOW_WIDTH / 2 : Int) : ℚ),
          ((Simulation.create windowOpen mass height).PARTICLE_PIXELS_HEIGHT : ℚ)⟩ ∧
    (Simulation.run L (Simulation.create windowOpen mass height)
        frames).resetKeyPressed.particle.velocity = ⟨0, 0⟩ ∧
    (Simulation.run L (Simulation.create windowOpen mass height)
        frames).resetKeyPressed.hasTouchedGround = false ∧
    (Simulation.run L (Simulation.create windowOpen mass height)
        frames).resetKeyPressed.timeToFirstContact = 0 ∧
    (Simulation.run L (Simulation.create windowOpen mass height)
        frames).resetKeyPressed.gameStarted = true ∧
    (Simulation.run L (Simulation.create windowOpen mass height)
        frames).resetKeyPressed.isPaused = false ∧
    (Simulation.run L (Simulation.create windowOpen mass height)
        frames).resetKeyPressed.simulationFinished = false ∧
    (∀ f : FrameInput, f.enterStart = true → f.closeRequested = false → f.num0 = false →
      f.backspace = false →
      (Simulation.resetSimulation
          { Simulation.create windowOpen mass height with gameStarted := true }).gameStarted
        = true ∧
      (Simulation.resetSimulation
          { Simulation.create windowOpen mass height with gameStarted := true }).isPaused
        = false ∧
      (Simulation.resetSimulation
          { Simulation.create windowOpen mass height with gameStarted := true }).simulationFinished
        = false ∧
      Simulation.runIteration L (Simulation.create windowOpen mass height) f =
        Simulation.activeTick L
          (Simulation.resetSimulation
            { Simulation.create windowOpen mass height with gameStarted := true }) f) ∧
    (inp.closeRequested = false →
      Simulation.runIteration L
          (Simulation.run L (Simulation.create windowOpen mass height) frames) inp =
        if inp.backspace = true ∧ inp.enterResume = false then
          { (Simulation.run L (Simulation.create windowOpen mass height)
              frames).resetKeyPressed with isPaused := true }
        else
          Simulation.activeTick L
            (Simulation.run L (Simulation.create windowOpen mass height)
              frames).resetKeyPressed inp) := by
  have hreach := Simulation.run_reachable L frames _
    (Simulation.Reachable.start (L := L) windowOpen mass height)
  have hpph := Simulation.run_pixelsHeight L frames (Simulation.create windowOpen mass height)
  obtain ⟨hstarted, hpaused⟩ := hreach.finished_inv hfinished
  generalize Simulation.run L (Simulation.create windowOpen mass height) frames = s at *
  have hpos : s.resetKeyPressed.particle.position =
      ⟨((WINDOW_WIDTH / 2 : Int) : ℚ),
        ((Simulation.create windowOpen mass height).PARTICLE_PIXELS_HEIGHT : ℚ)⟩ := by
    rw [← hpph]; rfl
  refine ⟨?_, hpos, rfl, rfl, ?_, ?_, rfl, rfl, ?_, ?_⟩
  · rw [hpos]; rfl
  · norm_num [Simulation.resetKeyPressed, Simulation.resetSimulation]
  · exact hstarted
  · intro f hes hcl hn0 hbs
    refine ⟨rfl, rfl, rfl, ?_⟩
    obtain ⟨cl, es, n0, bs, er, dt, t1, t2, t3⟩ := f
    simp only at hes hcl hn0 hbs
    subst hes hcl hn0 hbs
    simp [Simulation.runIteration, Simulation.create, Simulation.resetSimulation]
  · intro hcl
    obtain ⟨w, fin, st, pa, ts, fts, part, shape, htg, ttfc, pph⟩ := s
    obtain ⟨cl, es, n0, bs, er, dt, t1, t2, t3⟩ := inp
    simp only at hfinished hreset hstarted hpaused hcl
    subst hfinished hreset hstarted hpaused hcl
    unfold Simulation.runIteration
    cases es <;> cases bs <;> cases er <;>
      simp [Simulation.resetKeyPressed, Simulation.resetSimulation]

theorem exampleFrames_run :
    Simulation.run exampleLib (Simulation.create true 1 2) exampleFrames = exampleSettled := by
  have h1 : (Simulation.create true 1 2).windowOpen = true := rfl
  have h2 : (Simulation.runIteration exampleLib (Simulation.create true 1 2)
      exampleStartFrame).windowOpen = true := by
    rw [show Simulation.runIteration exampleLib (Simulation.create true 1 2) exampleStartFrame
      = exampleBounced from rfl, exampleBounced_eq]
  rw [exampleFrames, Simulation.run, if_pos h1, Simulation.run, if_pos h2, Simulation.run]
  rfl

/-- Witness for C11: the example session has finished after its two frames; the reset
key then puts the body back at the constructed position (640, 592). -/
theorem reset_round_trip_witness :
    (Simulation.run exampleLib (Simulation.create true 1 2) exampleFrames).simulationFinished
      = true ∧
    exampleResetFrame.num0 = true ∧
    (Simulation.run exampleLib (Simulation.create true 1 2)
        exampleFrames).resetKeyPressed.particle.position
      = (Simulation.create true 1 2).particle.position :=
  have hfin : (Simulation.run exampleLib (Simulation.create true 1 2)
      exampleFrames).simulationFinished = true := by
    rw [exampleFrames_run]; exact exampleSettled_finished
  ⟨hfin, rfl,
    (reset_round_trip exampleLib true 1 2 exampleFrames exampleResetFrame hfin rfl).1⟩

/-! ## C12: drag-free free fall -/

/-- Closed form of `n` drag-free ticks from a state with cleared acceleration. -/
theorem freeFall_closed_form (G dt : ℚ) (n : ℕ) (p : Particle)
    (hacc : p.acceleration = ⟨0, 0⟩) (hm : p.mass ≠ 0) :
    freeFall G dt n p =
      { position :=
          ⟨p.position.x + n * p.velocity.x * dt,
           p.position.y + n * p.velocity.y * dt + G * dt ^ 2 * n * (n + 1) / 2⟩
        velocity := ⟨p.velocity.x, p.velocity.y + G * (n * dt)⟩
        acceleration := ⟨0, 0⟩
        mass := p.mass } := by
  induction n generalizing p with
  | zero =>
    obtain ⟨pos, vel, acc, m⟩ := p
    simp only at hacc
    subst hacc
    simp [freeFall, Vector2f.ext_iff_xy]
  | succ k ih =>
    have hacc1 : (freeFallTick G p dt).acceleration = ⟨0, 0⟩ := rfl
    have hm1 : (freeFallTick G p dt).mass ≠ 0 := hm
    rw [freeFall, ih _ hacc1 hm1]
    simp only [freeFallTick, Particle.applyForce, Particle.update, hacc, Vector2f.add_x,
      Vector2f.add_y, Vector2f.mulScalar_x, Vector2f.mulScalar_y, Vector2f.divScalar_x,
      Vector2f.divScalar_y, Particle.mk.injEq, Vector2f.ext_iff_xy, and_true, true_and]
    have hg : G * p.mass / p.mass = G := by field_simp
    rw [hg]
    push_cast
    refine ⟨⟨?_, ?_⟩, ?_, ?_⟩ <;> ring

/-- C12. Drag-free free fall from rest.  For every gravity `G`, mass `M > 0`, step `dt`
and `n`, repeating `n` times `applyForce((0, G*M)); update(dt)` from velocity (0,0) and
acceleration (0,0) gives, with `t = n*dt`: `velocity.y = G*t`; a vertical displacement
of `G*dt^2*n*(n+1)/2`, which is `(1/2)*G*t^2` plus the error `(1/2)*G*t*dt`;
`velocity.x` and `position.x` unchanged; the same result for every other positive mass.
The error vanishes as `dt -> 0` at fixed `t`. -/
theorem free_fall_from_rest (G M dt x y : ℚ) (n : ℕ) (hM : 0 < M) :
    (freeFall G dt n (Particle.create x y M)).velocity.y = G * (n * dt) ∧
    (freeFall G dt n (Particle.create x y M)).position.y - y = G * dt ^ 2 * n * (n + 1) / 2 ∧
    (freeFall G dt n (Particle.create x y M)).position.y - y - 1 / 2 * G * (n * dt) ^ 2
      = 1 / 2 * G * (n * dt) * dt ∧
    (freeFall G dt n (Particle.create x y M)).velocity.x = 0 ∧
    (freeFall G dt n (Particle.create x y M)).position.x = x ∧
    (∀ M2 : ℚ, 0 < M2 →
      (freeFall G dt n (Particle.create x y M2)).velocity
        = (freeFall G dt n (Particle.create x y M)).velocity ∧
      (freeFall G dt n (Particle.create x y M2)).position
        = (freeFall G dt n (Particle.create x y M)).position) ∧
    (∀ t ε : ℚ, 0 ≤ t → 0 < ε → ∃ δ : ℚ, 0 < δ ∧
      ∀ (h : ℚ) (k : ℕ), 0 < h → h < δ → k * h = t →
        |(freeFall G h k (Particle.create x y M)).position.y - y - 1 / 2 * G * t ^ 2| < ε) := by
  have hform : ∀ (m h : ℚ) (k : ℕ), 0 < m →
      freeFall G h k (Particle.create x y m) =
        { position := ⟨x, y + G * h ^ 2 * k * (k + 1) / 2⟩
          velocity := ⟨0, G * (k * h)⟩
          acceleration := ⟨0, 0⟩
          mass := m } := by
    intro m h k hm
    rw [freeFall_closed_form G h k _ rfl (ne_of_gt hm)]
    simp [Particle.create, Vector2f.ext_iff_xy]
  rw [hform M dt n hM]
  refine ⟨rfl, ?_, ?_, rfl, rfl, ?_, ?_⟩
  · simp
  · simp only; ring
  · intro M2 hM2
    rw [hform M2 dt n hM2]
    exact ⟨rfl, rfl⟩
  · intro t ε ht hε
    have hA : 0 ≤ |G| * t := mul_nonneg (abs_nonneg G) ht
    refine ⟨ε / (|G| * t + 1), by positivity, ?_⟩
    intro h k hh hδ hk
    rw [hform M h k hM]
    have herr : y + G * h ^ 2 * k * (k + 1) / 2 - y - 1 / 2 * G * t ^ 2 = 1 / 2 * (G * t) * h := by
      rw [← hk]; ring
    simp only
    rw [herr, abs_mul, abs_mul, abs_mul, abs_of_pos hh, abs_of_nonneg ht]
    have h1 : (|G| * t + 1) * h < ε := by
      rw [lt_div_iff₀ (by positivity)] at hδ
      linarith
    have h2 : |(1 / 2 : ℚ)| = 1 / 2 := by norm_num
    rw [h2]
    nlinarith [mul_nonneg hA hh.le]

/-- Witness for C12: mass 1, ten steps of a tenth of a second under `GRAVITY`. -/
theorem free_fall_from_rest_witness :
    (0 : ℚ) < 1 ∧
    (freeFall GRAVITY (1 / 10) 10 (Particle.create 640 0 1)).velocity.y
      = GRAVITY * ((10 : ℕ) * (1 / 10)) :=
  ⟨by norm_num, (free_fall_from_rest GRAVITY 1 (1 / 10) 640 0 10 (by norm_num)).1⟩

/-! ## C13: the coefficient at the regime boundaries -/

theorem le_rpow_of_pow_le {a b : ℝ} (ha : 0 ≤ a) (hb : 0 ≤ b) (p q : ℕ) (hq : q ≠ 0)
    (h : b ^ q ≤ a ^ p) : b ≤ a ^ ((p : ℝ) / (q : ℝ)) := by
  have h1 : a ^ ((p : ℝ) / (q : ℝ)) = (a ^ p) ^ ((q : ℝ)⁻¹) := by
    rw [div_eq_mul_inv, Real.rpow_mul ha, Real.rpow_natCast]
  have h2 : b = (b ^ q) ^ ((q : ℝ)⁻¹) := (Real.pow_rpow_inv_natCast hb hq).symm
  rw [h1, h2]
  exact Real.rpow_le_rpow (pow_nonneg hb q) h (by positivity)

theorem rpow_le_of_pow_le {a b : ℝ} (ha : 0 ≤ a) (hb : 0 ≤ b) (p q : ℕ) (hq : q ≠ 0)
    (h : a ^ p ≤ b ^ q) : a ^ ((p : ℝ) / (q : ℝ)) ≤ b := by
  have h1 : a ^ ((p : ℝ) / (q : ℝ)) = (a ^ p) ^ ((q : ℝ)⁻¹) := by
    rw [div_eq_mul_inv, Real.rpow_mul ha, Real.rpow_natCast]
  have h2 : b = (b ^ q) ^ ((q : ℝ)⁻¹) := (Real.pow_rpow_inv_natCast hb hq).symm
  rw [h1, h2]
  exact Real.rpow_le_rpow (pow_nonneg ha p) h (by positivity)

/-- The real power `0.1 ^ 0.687` (about 0.2056) lies in `[0.1, 0.25]`. -/
theorem rpow_tenth_bounds :
    (0.1 : ℝ) ≤ (0.1 : ℝ) ^ (0.687 : ℝ) ∧ (0.1 : ℝ) ^ (0.687 : ℝ) ≤ 0.25 := by
  constructor
  · have h := Real.rpow_le_rpow_of_exponent_ge (x := 0.1) (y := 1) (z := 0.687)
      (by norm_num) (by norm_num) (by norm_num)
    simpa using h
  · have h1 := Real.rpow_le_rpow_of_exponent_ge (x := 0.1) (y := 0.687)
      (z := ((2 : ℕ) : ℝ) / ((3 : ℕ) : ℝ)) (by norm_num) (by norm_num) (by norm_num)
    have h2 := rpow_le_of_pow_le (a := 0.1) (b := 0.25) (by norm_num) (by norm_num) 2 3
      (by norm_num) (by norm_num)
    exact h1.trans h2

/-- The real power `1000 ^ 0.687` (about 115.08) lies in `[113, 116]`. -/
theorem rpow_thousand_bounds :
    (113 : ℝ) ≤ (1000 : ℝ) ^ (0.687 : ℝ) ∧ (1000 : ℝ) ^ (0.687 : ℝ) ≤ 116 := by
  constructor
  · have h1 := Real.rpow_le_rpow_of_exponent_le (x := 1000)
      (y := ((24 : ℕ) : ℝ) / ((35 : ℕ) : ℝ)) (z := 0.687) (by norm_num) (by norm_num)
    have h2 := le_rpow_of_pow_le (a := 1000) (b := 113) (by norm_num) (by norm_num) 24 35
      (by norm_num) (by norm_num)
    exact h2.trans h1
  · have h1 := Real.rpow_le_rpow_of_exponent_le (x := 1000)
      (z := ((11 : ℕ) : ℝ) / ((16 : ℕ) : ℝ)) (y := 0.687) (by norm_num) (by norm_num)
    have h2 := rpow_le_of_pow_le (a := 1000) (b := 116) (by norm_num) (by norm_num) 11 16
      (by norm_num) (by norm_num)
    exact h1.trans h2

/-- C13, as stated, fails at `Re = 300000`: the two adjacent formulas give 0.44 and 0.1,
which differ by 0.34, more than 5% of the larger; the code returns 0.44 at 3201 pixels
per second (just below the boundary) and 0.1 at 3202 (just above). -/
theorem drag_coefficient_jump_at_300000 :
    Regime.coefficient exampleLib 300000 Regime.newton = 0.44 ∧
    Regime.coefficient exampleLib 300000 Regime.postCritical = 0.1 ∧
    ¬ (|Regime.coefficient exampleLib 300000 Regime.newton
          - Regime.coefficient exampleLib 300000 Regime.postCritical|
        ≤ 0.05 * max (Regime.coefficient exampleLib 300000 Regime.newton)
            (Regime.coefficient exampleLib 300000 Regime.postCritical)) ∧
    Particle.calculateDragCoefficient exampleLib
      { position := ⟨0, 0⟩, velocity := ⟨0, 3201⟩, acceleration := ⟨0, 0⟩, mass := 1 } = 0.44 ∧
    Particle.calculateDragCoefficient exampleLib
      { position := ⟨0, 0⟩, velocity := ⟨0, 3202⟩, acceleration := ⟨0, 0⟩, mass := 1 } = 0.1 := by
  refine ⟨rfl, rfl, ?_, ?_, ?_⟩
  · norm_num [Regime.coefficient, abs_le]
  · norm_num [Particle.calculateDragCoefficient, Particle.calculateReynoldsNumber, exampleLib,
      Rat.sqrt, PIXELS_PER_M, AIR_DENSITY, AIR_VISCOSITY, BALL_RADIUS]
  · norm_num [Particle.calculateDragCoefficient, Particle.calculateReynoldsNumber, exampleLib,
      Rat.sqrt, PIXELS_PER_M, AIR_DENSITY, AIR_VISCOSITY, BALL_RADIUS]

/-- C13, amended.  When the library power is within 0.1 of the real `0.1^0.687` and
within 2 of the real `1000^0.687`: at `Re = 0.1` the Stokes and the transitional
formulas, and at `Re = 1000` the transitional formula and the constant 0.44, differ by
at most 5% of the larger of the two; at `Re = 300000` the constants 0.44 and 0.1 differ
by exactly 0.34, which is 17/22 (about 77%) of the larger. -/
theorem drag_coefficient_boundaries (L : StdLib)
    (hlow : |((L.pow 0.1 0.687 : ℚ) : ℝ) - (0.1 : ℝ) ^ (0.687 : ℝ)| ≤ 0.1)
    (hhigh : |((L.pow 1000 0.687 : ℚ) : ℝ) - (1000 : ℝ) ^ (0.687 : ℝ)| ≤ 2) :
    |Regime.coefficient L 0.1 Regime.stokes - Regime.coefficient L 0.1 Regime.transitional|
      ≤ 0.05 * max (Regime.coefficient L 0.1 Regime.stokes)
          (Regime.coefficient L 0.1 Regime.transitional) ∧
    |Regime.coefficient L 1000 Regime.transitional - Regime.coefficient L 1000 Regime.newton|
      ≤ 0.05 * max (Regime.coefficient L 1000 Regime.transitional)
          (Regime.coefficient L 1000 Regime.newton) ∧
    |Regime.coefficient L 300000 Regime.newton
        - Regime.coefficient L 300000 Regime.postCritical| = 0.34 ∧
    (0.34 : ℚ) = 17 / 22 * max (Regime.coefficient L 300000 Regime.newton)
        (Regime.coefficient L 300000 Regime.postCritical) := by
  have hx : 0 ≤ L.pow 0.1 0.687 ∧ L.pow 0.1 0.687 ≤ 0.35 := by
    have hb := rpow_tenth_bounds
    rw [abs_le] at hlow
    have h1 : (0 : ℝ) ≤ ((L.pow 0.1 0.687 : ℚ) : ℝ) := by linarith [hb.1, hlow.1]
    have h2 : ((L.pow 0.1 0.687 : ℚ) : ℝ) ≤ 0.35 := by linarith [hb.2, hlow.2]
    constructor
    · exact_mod_cast h1
    · have h3 : ((L.pow 0.1 0.687 : ℚ) : ℝ) ≤ ((0.35 : ℚ) : ℝ) := by
        push_cast; linarith
      exact_mod_cast h3
  have hy : 111 ≤ L.pow 1000 0.687 ∧ L.pow 1000 0.687 ≤ 118 := by
    have hb := rpow_thousand_bounds
    rw [abs_le] at hhigh
    have h1 : (111 : ℝ) ≤ ((L.pow 1000 0.687 : ℚ) : ℝ) := by linarith [hb.1, hhigh.1]
    have h2 : ((L.pow 1000 0.687 : ℚ) : ℝ) ≤ 118 := by linarith [hb.2, hhigh.2]
    constructor
    · exact_mod_cast h1
    · exact_mod_cast h2
  simp only [Regime.coefficient]
  generalize L.pow 0.1 0.687 = u at hx
  generalize L.pow 1000 0.687 = v at hy
  obtain ⟨hu0, hu1⟩ := hx
  obtain ⟨hv0, hv1⟩ := hy
  have hmax : max (0.1 : ℚ) 0.001 = 0.1 := max_eq_left (by norm_num)
  refine ⟨?_, ?_, ?_, ?_⟩
  · rw [hmax]
    have hle : (24 : ℚ) / 0.1 ≤ 24 / 0.1 * (1 + 0.15 * u) := by
      have : (24 : ℚ) / 0.1 = 240 := by norm_num
      rw [this]; nlinarith
    rw [max_eq_right hle, abs_of_nonpos (by linarith)]
    norm_num
    linarith
  · have hm : (0.44 : ℚ) ≤ max (24 / 1000 * (1 + 0.15 * v)) 0.44 := le_max_right _ _
    generalize max (24 / 1000 * (1 + 0.15 * v)) 0.44 = m at hm ⊢
    rw [abs_le]
    constructor <;> norm_num at hm ⊢ <;> linarith
  · norm_num [abs_of_pos]
  · rw [max_eq_left (by norm_num)]; norm_num

/-- Witness for C13 amended: the table library is within the tolerances. -/
theorem drag_coefficient_boundaries_witness :
    |((exampleTableLib.pow 0.1 0.687 : ℚ) : ℝ) - (0.1 : ℝ) ^ (0.687 : ℝ)| ≤ 0.1 ∧
    |((exampleTableLib.pow 1000 0.687 : ℚ) : ℝ) - (1000 : ℝ) ^ (0.687 : ℝ)| ≤ 2 ∧
    |Regime.coefficient exampleTableLib 1000 Regime.transitional
        - Regime.coefficient exampleTableLib 1000 Regime.newton|
      ≤ 0.05 * max (Regime.coefficient exampleTableLib 1000 Regime.transitional)
          (Regime.coefficient exampleTableLib 1000 Regime.newton) :=
  have h1 : |((exampleTableLib.pow 0.1 0.687 : ℚ) : ℝ) - (0.1 : ℝ) ^ (0.687 : ℝ)| ≤ 0.1 := by
    have hb := rpow_tenth_bounds
    have hv : exampleTableLib.pow 0.1 0.687 = 1 / 5 := by norm_num [exampleTableLib]
    rw [hv, abs_le]
    push_cast
    constructor <;> linarith [hb.1, hb.2]
  have h2 : |((exampleTableLib.pow 1000 0.687 : ℚ) : ℝ) - (1000 : ℝ) ^ (0.687 : ℝ)| ≤ 2 := by
    have hb := rpow_thousand_bounds
    have hv : exampleTableLib.pow 1000 0.687 = 115 := by norm_num [exampleTableLib]
    rw [hv, abs_le]
    push_cast
    constructor <;> linarith [hb.1, hb.2]
  ⟨h1, h2, (drag_coefficient_boundaries exampleTableLib h1 h2).2.1⟩

/-! ## C14: the input prompts -/

/-- C14 fails on the code.  With the events `5`, Enter, Backspace, `0`, Enter queued in
one frame, `getMass` accepts 5 and then overwrites the result with the parsed 0 without
clearing `inputDone`: it returns 0, outside `[0.001, 100]` and not positive.  With `5`,
Enter, `0`, Enter queued in one frame `getHeight` returns 50, outside `[1, 10]`. -/
theorem prompts_return_unvalidated_value :
    InputHandler.getMass decimalStof 0 true
        [[typed 53, typed 13, typed 8, typed 48, typed 13]]
      = PromptResult.returned 0 true ∧
    ¬ ((0.001 : ℚ) ≤ 0 ∧ (0 : ℚ) ≤ 100) ∧
    InputHandler.getHeight decimalStof 0 true [[typed 53, typed 13, typed 48, typed 13]]
      = PromptResult.returned 50 true ∧
    ¬ ((1 : ℚ) ≤ 50 ∧ (50 : ℚ) ≤ 10) := by
  refine ⟨?_, by norm_num, ?_, by norm_num⟩
  · simp [InputHandler.getMass, InputHandler.prompt, InputHandler.promptLoop,
      InputHandler.pollEvents, InputHandler.handleEvent, typed, decimalStof, digitsValue]
    norm_num
  · simp [InputHandler.getHeight, InputHandler.prompt, InputHandler.promptLoop,
      InputHandler.pollEvents, InputHandler.handleEvent, typed, decimalStof, digitsValue]
    norm_num

/-- An event handled while `inputDone` is false sets `inputDone` only together with a
value in the range. -/
theorem InputHandler.handleEvent_accepts_in_range (stof : List Nat → Option ℚ) (lo hi : ℚ)
    (st st2 : PromptState) (e : PolledEvent) (hdone : st.inputDone = false)
    (h : InputHandler.handleEvent stof lo hi st e = some st2) :
    st2.inputDone = true → lo ≤ st2.value ∧ st2.value ≤ hi := by
  unfold InputHandler.handleEvent at h
  by_cases hc : e.event = Event.closed ∨ e.escapeHeld = true
  · rw [if_pos hc] at h; cases h
  · rw [if_neg hc] at h
    cases hev : e.event with
    | closed => exact absurd (Or.inl hev) hc
    | other =>
      rw [hev] at h
      cases h
      simp [hdone]
    | textEntered u =>
      rw [hev] at h
      simp only at h
      split_ifs at h
      · cases h; simp [hdone]
      · cases hs : stof st.userInputString with
        | none => rw [hs] at h; cases h; simp [hdone]
        | some v =>
          rw [hs] at h
          cases h
          simp only [hdone]
          split_ifs with hr
          · intro _; exact hr
          · simp
      · cases h; simp [hdone]
      · cases h; simp [hdone]
      · cases h; simp [hdone]

/-- When the frames deliver at most one event each, a prompt returns either an
accepted value, which lies in the range, with the window open, or the default with the
window closed. -/
theorem InputHandler.promptLoop_one_event_per_frame (stof : List Nat → Option ℚ)
    (lo hi dflt : ℚ) (frames : List (List PolledEvent)) (st : PromptState)
    (hone : ∀ batch ∈ frames, batch.length ≤ 1)
    (hinv : st.inputDone = true → lo ≤ st.value ∧ st.value ≤ hi) (v : ℚ) (w : Bool)
    (h : InputHandler.promptLoop stof lo hi dflt st frames = PromptResult.returned v w) :
    (lo ≤ v ∧ v ≤ hi ∧ w = true) ∨ (v = dflt ∧ w = false) := by
  induction frames generalizing st with
  | nil =>
    unfold InputHandler.promptLoop at h
    split_ifs at h with hd
    cases h
    exact Or.inl ⟨(hinv hd).1, (hinv hd).2, rfl⟩
  | cons batch rest ih =>
    unfold InputHandler.promptLoop at h
    split_ifs at h with hd
    · cases h
      exact Or.inl ⟨(hinv hd).1, (hinv hd).2, rfl⟩
    · have hd2 : st.inputDone = false := by simpa using hd
      have hrest : ∀ b ∈ rest, b.length ≤ 1 := fun b hb => hone b (List.mem_cons_of_mem _ hb)
      have hb := hone batch (List.mem_cons_self _ _)
      match batch, hb with
      | [], _ =>
        simp only [InputHandler.pollEvents] at h
        exact ih st hrest hinv h
      | [e], _ =>
        simp only [InputHandler.pollEvents] at h
        cases he : InputHandler.handleEvent stof lo hi st e with
        | none =>
          rw [he] at h
          cases h
          exact Or.inr ⟨rfl, rfl⟩
        | some st2 =>
          rw [he] at h
          exact ih st2 hrest
            (InputHandler.handleEvent_accepts_in_range stof lo hi st st2 e hd2 he) h

/-! ## C15: the drop height of the constructed body -/

/-- C15 fails on the code at the height 2.0: the `int` global `PARTICLE_PIXELS_HEIGHT`
drops the fraction of `BASE_Y - 2*PIXELS_PER_M = 592.44`, so the body is created, and
put back by reset, at `y = 592`; `BASE_Y - position.y` is 116, not `2*PIXELS_PER_M =
115.56`, and the displayed height is `5800/2889` (about 2.0076), not 2. -/
theorem created_height_is_truncated :
    (Simulation.create true 1 2).PARTICLE_PIXELS_HEIGHT = 592 ∧
    (Simulation.create true 1 2).particle.position.y = 592 ∧
    (Simulation.resetSimulation (Simulation.create true 1 2)).particle.position.y = 592 ∧
    BASE_Y - (Simulation.create true 1 2).particle.position.y = 116 ∧
    (2 : ℚ) * PIXELS_PER_M = 115.56 ∧
    BASE_Y - (Simulation.create true 1 2).particle.position.y ≠ 2 * PIXELS_PER_M ∧
    displayedHeight (Simulation.create true 1 2).particle = 5800 / 2889 ∧
    displayedHeight (Simulation.create true 1 2).particle ≠ 2 := by
  have h : floatToInt (BASE_Y - 2 * PIXELS_PER_M) = 592 := by
    norm_num [floatToInt, BASE_Y, PIXELS_PER_M, WINDOW_HEIGHT, PARTICLE_SIZE]
  have hy : (Simulation.create true 1 2).particle.position.y = 592 := by
    simp only [Simulation.create, Particle.create, h]
    norm_num
  have hr : (Simulation.resetSimulation (Simulation.create true 1 2)).particle.position.y
      = 592 := by
    simp only [Simulation.resetSimulation, Simulation.create, h]
    norm_num
  refine ⟨h, hy, hr, ?_, ?_, ?_, ?_, ?_⟩
  · rw [hy]; norm_num [BASE_Y, WINDOW_HEIGHT, PARTICLE_SIZE]
  · norm_num [PIXELS_PER_M]
  · rw [hy]; norm_num [BASE_Y, WINDOW_HEIGHT, PARTICLE_SIZE, PIXELS_PER_M]
  · rw [displayedHeight, hy]; norm_num [BASE_Y, WINDOW_HEIGHT, PARTICLE_SIZE, PIXELS_PER_M]
  · rw [displayedHeight, hy]; norm_num [BASE_Y, WINDOW_HEIGHT, PARTICLE_SIZE, PIXELS_PER_M]

/-- For a height between 1 and 10 the constructed body is on or above the floor, and
`BASE_Y - position.y` exceeds `height * PIXELS_PER_M` by less than one pixel. -/
theorem Simulation.create_height_error (windowOpen : Bool) (mass height : ℚ)
    (h1 : 1 ≤ height) (h10 : height ≤ 10) :
    (Simulation.create windowOpen mass height).particle.position.y ≤ BASE_Y ∧
    height * PIXELS_PER_M ≤
      BASE_Y - (Simulation.create windowOpen mass height).particle.position.y ∧
    BASE_Y - (Simulation.create windowOpen mass height).particle.position.y
      < height * PIXELS_PER_M + 1 := by
  have hnn : 0 ≤ BASE_Y - height * PIXELS_PER_M := by
    norm_num [BASE_Y, WINDOW_HEIGHT, PARTICLE_SIZE, PIXELS_PER_M]
    linarith
  have hy : (Simulation.create windowOpen mass height).particle.position.y
      = ((⌊BASE_Y - height * PIXELS_PER_M⌋ : Int) : ℚ) := by
    simp only [Simulation.create, Particle.create, floatToInt, if_pos hnn]
  have hfl := Int.floor_le (BASE_Y - height * PIXELS_PER_M)
  have hlt := Int.lt_floor_add_one (BASE_Y - height * PIXELS_PER_M)
  have hpos : (0 : ℚ) < height * PIXELS_PER_M := by
    have : (0 : ℚ) < PIXELS_PER_M := by norm_num [PIXELS_PER_M]
    positivity
  rw [hy]
  refine ⟨?_, ?_, ?_⟩ <;> linarith

/-! ## C16: the Stokes branch -/

/-- C16. The Stokes branch of `calculateDragCoefficient` is unreachable: at a speed of
at least 0.01 pixels per second the Reynolds number is at least 0.937 (its value at
0.01 lies between 0.937 and 0.938), hence at least 0.1; the Stokes row never applies;
and the function equals the one without the `24/max(Re, 0.001)` case, so every returned
coefficient is 0.47, the transitional formula, 0.44 or 0.1. -/
theorem stokes_branch_unreachable (L : StdLib) (p : Particle) :
    (0.01 ≤ p.speedPixels L →
      0.937 ≤ p.calculateReynoldsNumber (p.speedPixels L / PIXELS_PER_M) ∧
      0.1 ≤ p.calculateReynoldsNumber (p.speedPixels L / PIXELS_PER_M)) ∧
    (0.937 ≤ p.calculateReynoldsNumber (0.01 / PIXELS_PER_M) ∧
      p.calculateReynoldsNumber (0.01 / PIXELS_PER_M) < 0.938) ∧
    ¬ Regime.applies (p.speedPixels L)
        (p.calculateReynoldsNumber (p.speedPixels L / PIXELS_PER_M)) Regime.stokes ∧
    p.calculateDragCoefficient L =
      (if p.speedPixels L < 0.01 then 0.47
      else if p.calculateReynoldsNumber (p.speedPixels L / PIXELS_PER_M) < 1000 then
        24 / p.calculateReynoldsNumber (p.speedPixels L / PIXELS_PER_M) *
          (1 + 0.15 * L.pow (p.calculateReynoldsNumber (p.speedPixels L / PIXELS_PER_M)) 0.687)
      else if p.calculateReynoldsNumber (p.speedPixels L / PIXELS_PER_M) < 300000 then 0.44
      else 0.1) ∧
    (p.calculateDragCoefficient L = 0.47 ∨
      p.calculateDragCoefficient L =
        24 / p.calculateReynoldsNumber (p.speedPixels L / PIXELS_PER_M) *
          (1 + 0.15 * L.pow (p.calculateReynoldsNumber (p.speedPixels L / PIXELS_PER_M)) 0.687) ∨
      p.calculateDragCoefficient L = 0.44 ∨
      p.calculateDragCoefficient L = 0.1) := by
  have hre : ∀ s : ℚ, 0.01 ≤ s → 0.937 ≤ p.calculateReynoldsNumber (s / PIXELS_PER_M) := by
    intro s hs
    unfold Particle.calculateReynoldsNumber AIR_DENSITY BALL_RADIUS AIR_VISCOSITY PIXELS_PER_M
    norm_num at hs ⊢
    linarith
  have hcd : p.calculateDragCoefficient L =
      if p.speedPixels L < 0.01 then 0.47
      else if p.calculateReynoldsNumber (p.speedPixels L / PIXELS_PER_M) < 0.1 then
        24.0 / max (p.calculateReynoldsNumber (p.speedPixels L / PIXELS_PER_M)) 0.001
      else if p.calculateReynoldsNumber (p.speedPixels L / PIXELS_PER_M) < 1000.0 then
        24.0 / p.calculateReynoldsNumber (p.speedPixels L / PIXELS_PER_M) *
          (1.0 + 0.15 * L.pow (p.calculateReynoldsNumber (p.speedPixels L / PIXELS_PER_M)) 0.687)
      else if p.calculateReynoldsNumber (p.speedPixels L / PIXELS_PER_M) < 300000.0 then 0.44
      else 0.1 := rfl
  have hfour : p.calculateDragCoefficient L =
      (if p.speedPixels L < 0.01 then 0.47
      else if p.calculateReynoldsNumber (p.speedPixels L / PIXELS_PER_M) < 1000 then
        24 / p.calculateReynoldsNumber (p.speedPixels L / PIXELS_PER_M) *
          (1 + 0.15 * L.pow (p.calculateReynoldsNumber (p.speedPixels L / PIXELS_PER_M)) 0.687)
      else if p.calculateReynoldsNumber (p.speedPixels L / PIXELS_PER_M) < 300000 then 0.44
      else 0.1) := by
    rw [hcd]
    by_cases hs : p.speedPixels L < 0.01
    · rw [if_pos hs, if_pos hs]
    · have h := hre _ (not_lt.mp hs)
      rw [if_neg hs, if_neg hs, if_neg (by linarith)]
      norm_num
  refine ⟨fun hs => ⟨hre _ hs, by linarith [hre _ hs]⟩, ⟨hre _ le_rfl, ?_⟩, ?_, hfour, ?_⟩
  · unfold Particle.calculateReynoldsNumber AIR_DENSITY BALL_RADIUS AIR_VISCOSITY PIXELS_PER_M
    norm_num
  · intro happ
    simp only [Regime.applies] at happ
    linarith [hre _ happ.1, happ.2]
  · rw [hfour]
    split_ifs
    · exact Or.inl rfl
    · exact Or.inr (Or.inl rfl)
    · exact Or.inr (Or.inr (Or.inl rfl))
    · exact Or.inr (Or.inr (Or.inr rfl))

/-! ## C17: contact only while moving downward -/

/-- C17. For an active tick with `dt >= 0` that starts with `position.y <= BASE_Y`: if
the integrated `position.y` exceeds `BASE_Y` then `dt > 0` and the integrated
`velocity.y` is strictly positive (toward the floor), so the bounce branch leaves
`velocity.y` strictly negative; and a body whose integrated `velocity.y` is not
positive is not clamped: the tick leaves it as integrated. -/
theorem contact_only_moving_down (L : StdLib) (s : Simulation) (inp : FrameInput)
    (hdt : 0 ≤ inp.deltaTime) (hpos : s.particle.position.y ≤ BASE_Y) :
    ((Simulation.integrate L s.particle inp.deltaTime).position.y > BASE_Y →
      0 < inp.deltaTime ∧
      0 < (Simulation.integrate L s.particle inp.deltaTime).velocity.y ∧
      (|(Simulation.integrate L s.particle inp.deltaTime).velocity.y| > 2.0 →
        (Simulation.activeTick L s inp).particle.velocity.y < 0)) ∧
    ((Simulation.integrate L s.particle inp.deltaTime).velocity.y ≤ 0 →
      ¬ (Simulation.integrate L s.particle inp.deltaTime).position.y > BASE_Y ∧
      (Simulation.activeTick L s inp).particle =
        Simulation.integrate L s.particle inp.deltaTime) := by
  have hy : (Simulation.integrate L s.particle inp.deltaTime).position.y =
      s.particle.position.y
        + (Simulation.integrate L s.particle inp.deltaTime).velocity.y * inp.deltaTime := by
    rw [Simulation.integrate_eq]; rfl
  have hno : (Simulation.integrate L s.particle inp.deltaTime).velocity.y ≤ 0 →
      ¬ (Simulation.integrate L s.particle inp.deltaTime).position.y > BASE_Y := by
    intro hv hc
    rw [hy] at hc
    have := mul_nonpos_of_nonpos_of_nonneg hv hdt
    linarith
  constructor
  · intro hc
    have hv : 0 < (Simulation.integrate L s.particle inp.deltaTime).velocity.y := by
      by_contra hv
      exact hno (not_lt.mp hv) hc
    have hdt2 : 0 < inp.deltaTime := by
      rcases eq_or_lt_of_le hdt with h0 | h0
      · rw [hy, ← h0, mul_zero, add_zero] at hc
        exact absurd hc (not_lt.mpr hpos)
      · exact h0
    refine ⟨hdt2, hv, ?_⟩
    intro hS
    rw [Simulation.activeTick_of_contact L s inp hc]
    unfold Simulation.floorContact
    simp only [if_pos hS]
    have : -(Simulation.integrate L s.particle inp.deltaTime).velocity.y * 0.7 < 0 := by
      norm_num
      exact hv
    split_ifs <;> exact this
  · intro hv
    refine ⟨hno hv, ?_⟩
    rw [Simulation.activeTick_of_no_contact L s inp (hno hv)]

/-- Witness for C17: the body at rest 8 pixels above the floor and a tick of one
second: the contact comes with a positive step and a downward velocity. -/
theorem contact_only_moving_down_witness :
    (0 : ℚ) ≤ (exampleFrame 1 1).deltaTime ∧
    exampleNearFloor.particle.position.y ≤ BASE_Y ∧
    (Simulation.integrate exampleLib exampleNearFloor.particle
      (exampleFrame 1 1).deltaTime).position.y > BASE_Y ∧
    0 < (Simulation.integrate exampleLib exampleNearFloor.particle
      (exampleFrame 1 1).deltaTime).velocity.y :=
  have hdt : (0 : ℚ) ≤ (exampleFrame 1 1).deltaTime := by norm_num [exampleFrame]
  have hpos : exampleNearFloor.particle.position.y ≤ BASE_Y := by
    norm_num [exampleNearFloor, BASE_Y, WINDOW_HEIGHT, PARTICLE_SIZE]
  have hcontact : (Simulation.integrate exampleLib exampleNearFloor.particle
      (exampleFrame 1 1).deltaTime).position.y > BASE_Y := by
    norm_num [Simulation.integrate, Particle.applyForce, Particle.applyDrag, Particle.update,
      exampleNearFloor, exampleFrame, exampleLib, Rat.sqrt, GRAVITY, PIXELS_PER_M, BASE_Y,
      WINDOW_HEIGHT, PARTICLE_SIZE]
  ⟨hdt, hpos, hcontact,
    ((contact_only_moving_down exampleLib exampleNearFloor (exampleFrame 1 1) hdt hpos).1
      hcontact).2.1⟩

/-! ## C8: the floor bound and a zero mass -/

/-- With a non-zero mass the IEEE 754 divisions are finite and the tick leaves the
`position.y` of the exact model. -/
theorem tickPositionY754_of_mass_ne_zero (L : StdLib) (s : Simulation) (inp : FrameInput)
    (hm : s.particle.mass ≠ 0) :
    tickPositionY754 L s.particle inp.deltaTime =
      XFloat.finite (Simulation.activeTick L s inp).particle.position.y := by
  have hint : (Simulation.integrate L s.particle inp.deltaTime).position.y =
      s.particle.position.y +
        (s.particle.velocity.y +
          (s.particle.acceleration.y + (GRAVITY * s.particle.mass + (dragOf L s.particle).y)
            / s.particle.mass) * inp.deltaTime) * inp.deltaTime := by
    rw [Simulation.integrate_eq]
    simp [Particle.applyForce, Particle.update]
  have hpos : tickPositionY754 L s.particle inp.deltaTime =
      if (Simulation.integrate L s.particle inp.deltaTime).position.y > BASE_Y then
        XFloat.finite BASE_Y
      else XFloat.finite (Simulation.integrate L s.particle inp.deltaTime).position.y := by
    rw [hint]
    unfold tickPositionY754 dragOf
    by_cases hs : s.particle.speedPixels L < 0.01
    · simp only [if_pos hs, XFloat.div, if_neg hm, XFloat.add, XFloat.mul, XFloat.gt,
        decide_eq_true_eq, add_zero]
    · simp only [if_neg hs, XFloat.div, if_neg hm, XFloat.add, XFloat.mul, XFloat.gt,
        decide_eq_true_eq, add_div, add_assoc]
  rw [hpos]
  have hfloor := Simulation.activeTick_floor L s inp hm
  by_cases hc : (Simulation.integrate L s.particle inp.deltaTime).position.y > BASE_Y
  · rw [if_pos hc, (hfloor.2.2.2.1 hc).1]
  · rw [if_neg hc, (hfloor.2.2.2.2 hc).1]

/-- C8 fails on the code at mass 0, the value `getMass` returns for the events `5`,
Enter, Backspace, `0`, Enter queued in one frame.  The body is then constructed with
mass 0; in every tick from the constructed state the gravity force is `(0, 0)`, the body
is below the rest threshold so no drag force is added, and `applyForce` divides 0 by 0:
the acceleration, the velocity and `position.y` are NaN, the floor test
`position.y > BASE_Y` is false, and `position.y <= BASE_Y` is false as well. -/
theorem zero_mass_tick_position_is_nan :
    InputHandler.getMass decimalStof 0 true
        [[typed 53, typed 13, typed 8, typed 48, typed 13]]
      = PromptResult.returned 0 true ∧
    (Simulation.create true 0 2).particle.mass = 0 ∧
    GRAVITY * (Simulation.create true 0 2).particle.mass = 0 ∧
    Particle.speedPixels exampleLib (Simulation.create true 0 2).particle < 0.01 ∧
    XFloat.div (GRAVITY * (Simulation.create true 0 2).particle.mass)
      (Simulation.create true 0 2).particle.mass = XFloat.nan ∧
    ∀ deltaTime : ℚ,
      tickPositionY754 exampleLib (Simulation.create true 0 2).particle deltaTime = XFloat.nan ∧
      XFloat.gt (tickPositionY754 exampleLib (Simulation.create true 0 2).particle deltaTime)
        BASE_Y = false ∧
      XFloat.le (tickPositionY754 exampleLib (Simulation.create true 0 2).particle deltaTime)
        BASE_Y = false := by
  have hmass : (Simulation.create true 0 2).particle.mass = 0 := rfl
  have hspeed : Particle.speedPixels exampleLib (Simulation.create true 0 2).particle < 0.01 := by
    norm_num [Particle.speedPixels, Simulation.create, Particle.create, exampleLib, Rat.sqrt]
  have hnan : ∀ deltaTime : ℚ,
      tickPositionY754 exampleLib (Simulation.create true 0 2).particle deltaTime
        = XFloat.nan := by
    intro deltaTime
    unfold tickPositionY754
    simp only [if_pos hspeed, hmass, mul_zero, XFloat.div, if_true, XFloat.add, XFloat.mul,
      XFloat.gt]
    simp
  refine ⟨?_, hmass, by rw [hmass, mul_zero], hspeed, ?_, ?_⟩
  · simp [InputHandler.getMass, InputHandler.prompt, InputHandler.promptLoop,
      InputHandler.pollEvents, InputHandler.handleEvent, typed, decimalStof, digitsValue]
    norm_num
  · rw [hmass, mul_zero]; rfl
  · intro deltaTime
    rw [hnan deltaTime]
    exact ⟨rfl, rfl, rfl⟩

end Gravr
